import Mathlib

/-!
Verification of the two utilities in this repository
(src/foobar.py and src/helloworld.py) against their specification.

Python strings are modelled as lists of Unicode code points (`PyStr`);
string literals are injected with `strLit`.  Python `str.upper` is
modelled as the full Unicode 14.0 uppercase mapping, as shipped with
CPython 3.11: the finite table of every code point whose uppercase
differs from the code point itself, together with its (possibly
multi-code-point) uppercase image, is stored as a balanced binary
search tree, and all remaining code points are fixed.  The
command-line shells are modelled as functions from the argument vector
to an `ExecResult` (stdout, stderr, exit code); the behaviour of the
`argparse` standard library used by helloworld.py is modelled from its
documented semantics for this parser configuration: an optional
positional with default, a store-true flag with long-option
abbreviation, the automatic help option, the `--` separator,
negative-number-like and space-containing tokens treated as
positionals, immediate errors for explicit arguments given to
zero-argument options, and deferred unrecognized-argument errors that
a later help option still preempts.
-/

/-- A Python string: a finite sequence of Unicode code points. -/
abbrev PyStr := List Nat

/-- Inject a Lean string literal as a `PyStr` (its code points). -/
def strLit (s : String) : PyStr := s.data.map Char.toNat

/-- Binary search tree from code points to code-point sequences, used
to store the uppercase table of Python `str.upper`. -/
inductive UpTree where
  | leaf
  | node (l : UpTree) (key : Nat) (val : List Nat) (r : UpTree)

/-- Look a code point up in an `UpTree`. -/
def UpTree.lookup : UpTree → Nat → Option (List Nat)
  | .leaf, _ => none
  | .node l k v r, c =>
      if c < k then l.lookup c else if k < c then r.lookup c else some v

/-- Check a predicate on every key-value pair of an `UpTree`. -/
def UpTree.allNodes (p : Nat → List Nat → Bool) : UpTree → Bool
  | .leaf => true
  | .node l k v r => l.allNodes p && p k v && r.allNodes p

/-- Keys of an `UpTree` in symmetric order. -/
def UpTree.keys : UpTree → List Nat
  | .leaf => []
  | .node l k _ r => l.keys ++ k :: r.keys

/-- Strictly ascending list of naturals. -/
def ascending : List Nat → Bool
  | [] => true
  | [_] => true
  | a :: b :: rest => a < b && ascending (b :: rest)

/-!
The uppercase table of Python `str.upper` (Unicode 14.0, CPython
3.11): the 1525 code points `c` with `chr(c).upper() != chr(c)`,
mapped to the code points of `chr(c).upper()`, as a balanced binary
search tree.  For example `0x61` (a) maps to `[0x41]` (A), `0xe9` (é)
to `[0xc9]` (É), and `0xdf` (ß) to `[0x53, 0x53]` (SS).
-/

def upperTreeSub1 : UpTree :=
  (UpTree.node (UpTree.node (UpTree.node (UpTree.node (UpTree.node (UpTree.node (UpTree.node
  UpTree.leaf 0x61 [0x41] UpTree.leaf) 0x62 [0x42] UpTree.leaf) 0x63 [0x43] (UpTree.node
  (UpTree.node UpTree.leaf 0x64 [0x44] UpTree.leaf) 0x65 [0x45] UpTree.leaf)) 0x66 [0x46]
  (UpTree.node (UpTree.node (UpTree.node UpTree.leaf 0x67 [0x47] UpTree.leaf) 0x68 [0x48]
  UpTree.leaf) 0x69 [0x49] (UpTree.node (UpTree.node UpTree.leaf 0x6a [0x4a] UpTree.leaf) 0x6b
  [0x4b] UpTree.leaf))) 0x6c [0x4c] (UpTree.node (UpTree.node (UpTree.node (UpTree.node
  UpTree.leaf 0x6d [0x4d] UpTree.leaf) 0x6e [0x4e] UpTree.leaf) 0x6f [0x4f] (UpTree.node
  (UpTree.node UpTree.leaf 0x70 [0x50] UpTree.leaf) 0x71 [0x51] UpTree.leaf)) 0x72 [0x52]
  (UpTree.node (UpTree.node (UpTree.node UpTree.leaf 0x73 [0x53] UpTree.leaf) 0x74 [0x54]
  UpTree.leaf) 0x75 [0x55] (UpTree.node (UpTree.node UpTree.leaf 0x76 [0x56] UpTree.leaf) 0x77
  [0x57] UpTree.leaf)))) 0x78 [0x58] (UpTree.node (UpTree.node (UpTree.node (UpTree.node
  (UpTree.node UpTree.leaf 0x79 [0x59] UpTree.leaf) 0x7a [0x5a] UpTree.leaf) 0xb5 [0x39c]
  (UpTree.node (UpTree.node UpTree.leaf 0xdf [0x53, 0x53] UpTree.leaf) 0xe0 [0xc0] UpTree.leaf))
  0xe1 [0xc1] (UpTree.node (UpTree.node (UpTree.node UpTree.leaf 0xe2 [0xc2] UpTree.leaf) 0xe3
  [0xc3] UpTree.leaf) 0xe4 [0xc4] (UpTree.node (UpTree.node UpTree.leaf 0xe5 [0xc5] UpTree.leaf)
  0xe6 [0xc6] UpTree.leaf))) 0xe7 [0xc7] (UpTree.node (UpTree.node (UpTree.node (UpTree.node
  UpTree.leaf 0xe8 [0xc8] UpTree.leaf) 0xe9 [0xc9] UpTree.leaf) 0xea [0xca] (UpTree.node
  (UpTree.node UpTree.leaf 0xeb [0xcb] UpTree.leaf) 0xec [0xcc] UpTree.leaf)) 0xed [0xcd]
  (UpTree.node (UpTree.node (UpTree.node UpTree.leaf 0xee [0xce] UpTree.leaf) 0xef [0xcf]
  UpTree.leaf) 0xf0 [0xd0] (UpTree.node (UpTree.node UpTree.leaf 0xf1 [0xd1] UpTree.leaf) 0xf2
  [0xd2] UpTree.leaf))))) 0xf3 [0xd3] (UpTree.node (UpTree.node (UpTree.node (UpTree.node
  (UpTree.node (UpTree.node UpTree.leaf 0xf4 [0xd4] UpTree.leaf) 0xf5 [0xd5] UpTree.leaf) 0xf6
  [0xd6] (UpTree.node (UpTree.node UpTree.leaf 0xf8 [0xd8] UpTree.leaf) 0xf9 [0xd9] UpTree.leaf))
  0xfa [0xda] (UpTree.node (UpTree.node (UpTree.node UpTree.leaf 0xfb [0xdb] UpTree.leaf) 0xfc
  [0xdc] UpTree.leaf) 0xfd [0xdd] (UpTree.node (UpTree.node UpTree.leaf 0xfe [0xde] UpTree.leaf)
  0xff [0x178] UpTree.leaf))) 0x101 [0x100] (UpTree.node (UpTree.node (UpTree.node (UpTree.node
  UpTree.leaf 0x103 [0x102] UpTree.leaf) 0x105 [0x104] UpTree.leaf) 0x107 [0x106] (UpTree.node
  (UpTree.node UpTree.leaf 0x109 [0x108] UpTree.leaf) 0x10b [0x10a] UpTree.leaf)) 0x10d [0x10c]
  (UpTree.node (UpTree.node (UpTree.node UpTree.leaf 0x10f [0x10e] UpTree.leaf) 0x111 [0x110]
  UpTree.leaf) 0x113 [0x112] (UpTree.node (UpTree.node UpTree.leaf 0x115 [0x114] UpTree.leaf)
  0x117 [0x116] UpTree.leaf)))) 0x119 [0x118] (UpTree.node (UpTree.node (UpTree.node (UpTree.node
  (UpTree.node UpTree.leaf 0x11b [0x11a] UpTree.leaf) 0x11d [0x11c] UpTree.leaf) 0x11f [0x11e]
  (UpTree.node (UpTree.node UpTree.leaf 0x121 [0x120] UpTree.leaf) 0x123 [0x122] UpTree.leaf))
  0x125 [0x124] (UpTree.node (UpTree.node (UpTree.node UpTree.leaf 0x127 [0x126] UpTree.leaf)
  0x129 [0x128] UpTree.leaf) 0x12b [0x12a] (UpTree.node (UpTree.node UpTree.leaf 0x12d [0x12c]
  UpTree.leaf) 0x12f [0x12e] UpTree.leaf))) 0x131 [0x49] (UpTree.node (UpTree.node (UpTree.node
  (UpTree.node UpTree.leaf 0x133 [0x132] UpTree.leaf) 0x135 [0x134] UpTree.leaf) 0x137 [0x136]
  (UpTree.node (UpTree.node UpTree.leaf 0x13a [0x139] UpTree.leaf) 0x13c [0x13b] UpTree.leaf))
  0x13e [0x13d] (UpTree.node (UpTree.node (UpTree.node UpTree.leaf 0x140 [0x13f] UpTree.leaf)
  0x142 [0x141] UpTree.leaf) 0x144 [0x143] (UpTree.node (UpTree.node UpTree.leaf 0x146 [0x145]
  UpTree.leaf) 0x148 [0x147] UpTree.leaf))))))

def upperTreeSub2 : UpTree :=
  (UpTree.node (UpTree.node (UpTree.node (UpTree.node (UpTree.node (UpTree.node (UpTree.node
  UpTree.leaf 0x14b [0x14a] UpTree.leaf) 0x14d [0x14c] UpTree.leaf) 0x14f [0x14e] (UpTree.node
  (UpTree.node UpTree.leaf 0x151 [0x150] UpTree.leaf) 0x153 [0x152] UpTree.leaf)) 0x155 [0x154]
  (UpTree.node (UpTree.node (UpTree.node UpTree.leaf 0x157 [0x156] UpTree.leaf) 0x159 [0x158]
  UpTree.leaf) 0x15b [0x15a] (UpTree.node (UpTree.node UpTree.leaf 0x15d [0x15c] UpTree.leaf)
  0x15f [0x15e] UpTree.leaf))) 0x161 [0x160] (UpTree.node (UpTree.node (UpTree.node (UpTree.node
  UpTree.leaf 0x163 [0x162] UpTree.leaf) 0x165 [0x164] UpTree.leaf) 0x167 [0x166] (UpTree.node
  (UpTree.node UpTree.leaf 0x169 [0x168] UpTree.leaf) 0x16b [0x16a] UpTree.leaf)) 0x16d [0x16c]
  (UpTree.node (UpTree.node (UpTree.node UpTree.leaf 0x16f [0x16e] UpTree.leaf) 0x171 [0x170]
  UpTree.leaf) 0x173 [0x172] (UpTree.node (UpTree.node UpTree.leaf 0x175 [0x174] UpTree.leaf)
  0x177 [0x176] UpTree.leaf)))) 0x17a [0x179] (UpTree.node (UpTree.node (UpTree.node (UpTree.node
  (UpTree.node UpTree.leaf 0x17c [0x17b] UpTree.leaf) 0x17e [0x17d] UpTree.leaf) 0x17f [0x53]
  (UpTree.node (UpTree.node UpTree.leaf 0x180 [0x243] UpTree.leaf) 0x183 [0x182] UpTree.leaf))
  0x185 [0x184] (UpTree.node (UpTree.node (UpTree.node UpTree.leaf 0x188 [0x187] UpTree.leaf)
  0x18c [0x18b] UpTree.leaf) 0x192 [0x191] (UpTree.node (UpTree.node UpTree.leaf 0x195 [0x1f6]
  UpTree.leaf) 0x199 [0x198] UpTree.leaf))) 0x19a [0x23d] (UpTree.node (UpTree.node (UpTree.node
  (UpTree.node UpTree.leaf 0x19e [0x220] UpTree.leaf) 0x1a1 [0x1a0] UpTree.leaf) 0x1a3 [0x1a2]
  (UpTree.node (UpTree.node UpTree.leaf 0x1a5 [0x1a4] UpTree.leaf) 0x1a8 [0x1a7] UpTree.leaf))
  0x1ad [0x1ac] (UpTree.node (UpTree.node (UpTree.node UpTree.leaf 0x1b0 [0x1af] UpTree.leaf)
  0x1b4 [0x1b3] UpTree.leaf) 0x1b6 [0x1b5] (UpTree.node (UpTree.node UpTree.leaf 0x1b9 [0x1b8]
  UpTree.leaf) 0x1bd [0x1bc] UpTree.leaf))))) 0x1bf [0x1f7] (UpTree.node (UpTree.node
  (UpTree.node (UpTree.node (UpTree.node (UpTree.node UpTree.leaf 0x1c5 [0x1c4] UpTree.leaf)
  0x1c6 [0x1c4] UpTree.leaf) 0x1c8 [0x1c7] (UpTree.node (UpTree.node UpTree.leaf 0x1c9 [0x1c7]
  UpTree.leaf) 0x1cb [0x1ca] UpTree.leaf)) 0x1cc [0x1ca] (UpTree.node (UpTree.node (UpTree.node
  UpTree.leaf 0x1ce [0x1cd] UpTree.leaf) 0x1d0 [0x1cf] UpTree.leaf) 0x1d2 [0x1d1] (UpTree.node
  (UpTree.node UpTree.leaf 0x1d4 [0x1d3] UpTree.leaf) 0x1d6 [0x1d5] UpTree.leaf))) 0x1d8 [0x1d7]
  (UpTree.node (UpTree.node (UpTree.node (UpTree.node UpTree.leaf 0x1da [0x1d9] UpTree.leaf)
  0x1dc [0x1db] UpTree.leaf) 0x1dd [0x18e] (UpTree.node (UpTree.node UpTree.leaf 0x1df [0x1de]
  UpTree.leaf) 0x1e1 [0x1e0] UpTree.leaf)) 0x1e3 [0x1e2] (UpTree.node (UpTree.node (UpTree.node
  UpTree.leaf 0x1e5 [0x1e4] UpTree.leaf) 0x1e7 [0x1e6] UpTree.leaf) 0x1e9 [0x1e8] (UpTree.node
  (UpTree.node UpTree.leaf 0x1eb [0x1ea] UpTree.leaf) 0x1ed [0x1ec] UpTree.leaf)))) 0x1ef [0x1ee]
  (UpTree.node (UpTree.node (UpTree.node (UpTree.node (UpTree.node UpTree.leaf 0x1f0 [0x4a,
  0x30c] UpTree.leaf) 0x1f2 [0x1f1] UpTree.leaf) 0x1f3 [0x1f1] (UpTree.node (UpTree.node
  UpTree.leaf 0x1f5 [0x1f4] UpTree.leaf) 0x1f9 [0x1f8] UpTree.leaf)) 0x1fb [0x1fa] (UpTree.node
  (UpTree.node (UpTree.node UpTree.leaf 0x1fd [0x1fc] UpTree.leaf) 0x1ff [0x1fe] UpTree.leaf)
  0x201 [0x200] (UpTree.node (UpTree.node UpTree.leaf 0x203 [0x202] UpTree.leaf) 0x205 [0x204]
  UpTree.leaf))) 0x207 [0x206] (UpTree.node (UpTree.node (UpTree.node (UpTree.node UpTree.leaf
  0x209 [0x208] UpTree.leaf) 0x20b [0x20a] UpTree.leaf) 0x20d [0x20c] (UpTree.node (UpTree.node
  UpTree.leaf 0x20f [0x20e] UpTree.leaf) 0x211 [0x210] UpTree.leaf)) 0x213 [0x212] (UpTree.node
  (UpTree.node (UpTree.node UpTree.leaf 0x215 [0x214] UpTree.leaf) 0x217 [0x216] UpTree.leaf)
  0x219 [0x218] (UpTree.node UpTree.leaf 0x21b [0x21a] UpTree.leaf))))))

def upperTreeSub3 : UpTree :=
  (UpTree.node (UpTree.node (UpTree.node (UpTree.node (UpTree.node (UpTree.node (UpTree.node
  UpTree.leaf 0x21f [0x21e] UpTree.leaf) 0x223 [0x222] UpTree.leaf) 0x225 [0x224] (UpTree.node
  (UpTree.node UpTree.leaf 0x227 [0x226] UpTree.leaf) 0x229 [0x228] UpTree.leaf)) 0x22b [0x22a]
  (UpTree.node (UpTree.node (UpTree.node UpTree.leaf 0x22d [0x22c] UpTree.leaf) 0x22f [0x22e]
  UpTree.leaf) 0x231 [0x230] (UpTree.node (UpTree.node UpTree.leaf 0x233 [0x232] UpTree.leaf)
  0x23c [0x23b] UpTree.leaf))) 0x23f [0x2c7e] (UpTree.node (UpTree.node (UpTree.node (UpTree.node
  UpTree.leaf 0x240 [0x2c7f] UpTree.leaf) 0x242 [0x241] UpTree.leaf) 0x247 [0x246] (UpTree.node
  (UpTree.node UpTree.leaf 0x249 [0x248] UpTree.leaf) 0x24b [0x24a] UpTree.leaf)) 0x24d [0x24c]
  (UpTree.node (UpTree.node (UpTree.node UpTree.leaf 0x24f [0x24e] UpTree.leaf) 0x250 [0x2c6f]
  UpTree.leaf) 0x251 [0x2c6d] (UpTree.node (UpTree.node UpTree.leaf 0x252 [0x2c70] UpTree.leaf)
  0x253 [0x181] UpTree.leaf)))) 0x254 [0x186] (UpTree.node (UpTree.node (UpTree.node (UpTree.node
  (UpTree.node UpTree.leaf 0x256 [0x189] UpTree.leaf) 0x257 [0x18a] UpTree.leaf) 0x259 [0x18f]
  (UpTree.node (UpTree.node UpTree.leaf 0x25b [0x190] UpTree.leaf) 0x25c [0xa7ab] UpTree.leaf))
  0x260 [0x193] (UpTree.node (UpTree.node (UpTree.node UpTree.leaf 0x261 [0xa7ac] UpTree.leaf)
  0x263 [0x194] UpTree.leaf) 0x265 [0xa78d] (UpTree.node (UpTree.node UpTree.leaf 0x266 [0xa7aa]
  UpTree.leaf) 0x268 [0x197] UpTree.leaf))) 0x269 [0x196] (UpTree.node (UpTree.node (UpTree.node
  (UpTree.node UpTree.leaf 0x26a [0xa7ae] UpTree.leaf) 0x26b [0x2c62] UpTree.leaf) 0x26c [0xa7ad]
  (UpTree.node (UpTree.node UpTree.leaf 0x26f [0x19c] UpTree.leaf) 0x271 [0x2c6e] UpTree.leaf))
  0x272 [0x19d] (UpTree.node (UpTree.node (UpTree.node UpTree.leaf 0x275 [0x19f] UpTree.leaf)
  0x27d [0x2c64] UpTree.leaf) 0x280 [0x1a6] (UpTree.node (UpTree.node UpTree.leaf 0x282 [0xa7c5]
  UpTree.leaf) 0x283 [0x1a9] UpTree.leaf))))) 0x287 [0xa7b1] (UpTree.node (UpTree.node
  (UpTree.node (UpTree.node (UpTree.node (UpTree.node UpTree.leaf 0x288 [0x1ae] UpTree.leaf)
  0x289 [0x244] UpTree.leaf) 0x28a [0x1b1] (UpTree.node (UpTree.node UpTree.leaf 0x28b [0x1b2]
  UpTree.leaf) 0x28c [0x245] UpTree.leaf)) 0x292 [0x1b7] (UpTree.node (UpTree.node (UpTree.node
  UpTree.leaf 0x29d [0xa7b2] UpTree.leaf) 0x29e [0xa7b0] UpTree.leaf) 0x345 [0x399] (UpTree.node
  (UpTree.node UpTree.leaf 0x371 [0x370] UpTree.leaf) 0x373 [0x372] UpTree.leaf))) 0x377 [0x376]
  (UpTree.node (UpTree.node (UpTree.node (UpTree.node UpTree.leaf 0x37b [0x3fd] UpTree.leaf)
  0x37c [0x3fe] UpTree.leaf) 0x37d [0x3ff] (UpTree.node (UpTree.node UpTree.leaf 0x390 [0x399,
  0x308, 0x301] UpTree.leaf) 0x3ac [0x386] UpTree.leaf)) 0x3ad [0x388] (UpTree.node (UpTree.node
  (UpTree.node UpTree.leaf 0x3ae [0x389] UpTree.leaf) 0x3af [0x38a] UpTree.leaf) 0x3b0 [0x3a5,
  0x308, 0x301] (UpTree.node (UpTree.node UpTree.leaf 0x3b1 [0x391] UpTree.leaf) 0x3b2 [0x392]
  UpTree.leaf)))) 0x3b3 [0x393] (UpTree.node (UpTree.node (UpTree.node (UpTree.node (UpTree.node
  UpTree.leaf 0x3b4 [0x394] UpTree.leaf) 0x3b5 [0x395] UpTree.leaf) 0x3b6 [0x396] (UpTree.node
  (UpTree.node UpTree.leaf 0x3b7 [0x397] UpTree.leaf) 0x3b8 [0x398] UpTree.leaf)) 0x3b9 [0x399]
  (UpTree.node (UpTree.node (UpTree.node UpTree.leaf 0x3ba [0x39a] UpTree.leaf) 0x3bb [0x39b]
  UpTree.leaf) 0x3bc [0x39c] (UpTree.node (UpTree.node UpTree.leaf 0x3bd [0x39d] UpTree.leaf)
  0x3be [0x39e] UpTree.leaf))) 0x3bf [0x39f] (UpTree.node (UpTree.node (UpTree.node (UpTree.node
  UpTree.leaf 0x3c0 [0x3a0] UpTree.leaf) 0x3c1 [0x3a1] UpTree.leaf) 0x3c2 [0x3a3] (UpTree.node
  (UpTree.node UpTree.leaf 0x3c3 [0x3a3] UpTree.leaf) 0x3c4 [0x3a4] UpTree.leaf)) 0x3c5 [0x3a5]
  (UpTree.node (UpTree.node (UpTree.node UpTree.leaf 0x3c6 [0x3a6] UpTree.leaf) 0x3c7 [0x3a7]
  UpTree.leaf) 0x3c8 [0x3a8] (UpTree.node (UpTree.node UpTree.leaf 0x3c9 [0x3a9] UpTree.leaf)
  0x3ca [0x3aa] UpTree.leaf))))))

def upperTreeSub4 : UpTree :=
  (UpTree.node (UpTree.node (UpTree.node (UpTree.node (UpTree.node (UpTree.node (UpTree.node
  UpTree.leaf 0x3cc [0x38c] UpTree.leaf) 0x3cd [0x38e] UpTree.leaf) 0x3ce [0x38f] (UpTree.node
  (UpTree.node UpTree.leaf 0x3d0 [0x392] UpTree.leaf) 0x3d1 [0x398] UpTree.leaf)) 0x3d5 [0x3a6]
  (UpTree.node (UpTree.node (UpTree.node UpTree.leaf 0x3d6 [0x3a0] UpTree.leaf) 0x3d7 [0x3cf]
  UpTree.leaf) 0x3d9 [0x3d8] (UpTree.node (UpTree.node UpTree.leaf 0x3db [0x3da] UpTree.leaf)
  0x3dd [0x3dc] UpTree.leaf))) 0x3df [0x3de] (UpTree.node (UpTree.node (UpTree.node (UpTree.node
  UpTree.leaf 0x3e1 [0x3e0] UpTree.leaf) 0x3e3 [0x3e2] UpTree.leaf) 0x3e5 [0x3e4] (UpTree.node
  (UpTree.node UpTree.leaf 0x3e7 [0x3e6] UpTree.leaf) 0x3e9 [0x3e8] UpTree.leaf)) 0x3eb [0x3ea]
  (UpTree.node (UpTree.node (UpTree.node UpTree.leaf 0x3ed [0x3ec] UpTree.leaf) 0x3ef [0x3ee]
  UpTree.leaf) 0x3f0 [0x39a] (UpTree.node (UpTree.node UpTree.leaf 0x3f1 [0x3a1] UpTree.leaf)
  0x3f2 [0x3f9] UpTree.leaf)))) 0x3f3 [0x37f] (UpTree.node (UpTree.node (UpTree.node (UpTree.node
  (UpTree.node UpTree.leaf 0x3f5 [0x395] UpTree.leaf) 0x3f8 [0x3f7] UpTree.leaf) 0x3fb [0x3fa]
  (UpTree.node (UpTree.node UpTree.leaf 0x430 [0x410] UpTree.leaf) 0x431 [0x411] UpTree.leaf))
  0x432 [0x412] (UpTree.node (UpTree.node (UpTree.node UpTree.leaf 0x433 [0x413] UpTree.leaf)
  0x434 [0x414] UpTree.leaf) 0x435 [0x415] (UpTree.node (UpTree.node UpTree.leaf 0x436 [0x416]
  UpTree.leaf) 0x437 [0x417] UpTree.leaf))) 0x438 [0x418] (UpTree.node (UpTree.node (UpTree.node
  (UpTree.node UpTree.leaf 0x439 [0x419] UpTree.leaf) 0x43a [0x41a] UpTree.leaf) 0x43b [0x41b]
  (UpTree.node (UpTree.node UpTree.leaf 0x43c [0x41c] UpTree.leaf) 0x43d [0x41d] UpTree.leaf))
  0x43e [0x41e] (UpTree.node (UpTree.node (UpTree.node UpTree.leaf 0x43f [0x41f] UpTree.leaf)
  0x440 [0x420] UpTree.leaf) 0x441 [0x421] (UpTree.node (UpTree.node UpTree.leaf 0x442 [0x422]
  UpTree.leaf) 0x443 [0x423] UpTree.leaf))))) 0x444 [0x424] (UpTree.node (UpTree.node
  (UpTree.node (UpTree.node (UpTree.node (UpTree.node UpTree.leaf 0x445 [0x425] UpTree.leaf)
  0x446 [0x426] UpTree.leaf) 0x447 [0x427] (UpTree.node (UpTree.node UpTree.leaf 0x448 [0x428]
  UpTree.leaf) 0x449 [0x429] UpTree.leaf)) 0x44a [0x42a] (UpTree.node (UpTree.node (UpTree.node
  UpTree.leaf 0x44b [0x42b] UpTree.leaf) 0x44c [0x42c] UpTree.leaf) 0x44d [0x42d] (UpTree.node
  (UpTree.node UpTree.leaf 0x44e [0x42e] UpTree.leaf) 0x44f [0x42f] UpTree.leaf))) 0x450 [0x400]
  (UpTree.node (UpTree.node (UpTree.node (UpTree.node UpTree.leaf 0x451 [0x401] UpTree.leaf)
  0x452 [0x402] UpTree.leaf) 0x453 [0x403] (UpTree.node (UpTree.node UpTree.leaf 0x454 [0x404]
  UpTree.leaf) 0x455 [0x405] UpTree.leaf)) 0x456 [0x406] (UpTree.node (UpTree.node (UpTree.node
  UpTree.leaf 0x457 [0x407] UpTree.leaf) 0x458 [0x408] UpTree.leaf) 0x459 [0x409] (UpTree.node
  (UpTree.node UpTree.leaf 0x45a [0x40a] UpTree.leaf) 0x45b [0x40b] UpTree.leaf)))) 0x45c [0x40c]
  (UpTree.node (UpTree.node (UpTree.node (UpTree.node (UpTree.node UpTree.leaf 0x45d [0x40d]
  UpTree.leaf) 0x45e [0x40e] UpTree.leaf) 0x45f [0x40f] (UpTree.node (UpTree.node UpTree.leaf
  0x461 [0x460] UpTree.leaf) 0x463 [0x462] UpTree.leaf)) 0x465 [0x464] (UpTree.node (UpTree.node
  (UpTree.node UpTree.leaf 0x467 [0x466] UpTree.leaf) 0x469 [0x468] UpTree.leaf) 0x46b [0x46a]
  (UpTree.node (UpTree.node UpTree.leaf 0x46d [0x46c] UpTree.leaf) 0x46f [0x46e] UpTree.leaf)))
  0x471 [0x470] (UpTree.node (UpTree.node (UpTree.node (UpTree.node UpTree.leaf 0x473 [0x472]
  UpTree.leaf) 0x475 [0x474] UpTree.leaf) 0x477 [0x476] (UpTree.node (UpTree.node UpTree.leaf
  0x479 [0x478] UpTree.leaf) 0x47b [0x47a] UpTree.leaf)) 0x47d [0x47c] (UpTree.node (UpTree.node
  (UpTree.node UpTree.leaf 0x47f [0x47e] UpTree.leaf) 0x481 [0x480] UpTree.leaf) 0x48b [0x48a]
  (UpTree.node UpTree.leaf 0x48d [0x48c] UpTree.leaf))))))

def upperTreeSub5 : UpTree :=
  (UpTree.node (UpTree.node (UpTree.node (UpTree.node (UpTree.node (UpTree.node (UpTree.node
  UpTree.leaf 0x491 [0x490] UpTree.leaf) 0x493 [0x492] UpTree.leaf) 0x495 [0x494] (UpTree.node
  (UpTree.node UpTree.leaf 0x497 [0x496] UpTree.leaf) 0x499 [0x498] UpTree.leaf)) 0x49b [0x49a]
  (UpTree.node (UpTree.node (UpTree.node UpTree.leaf 0x49d [0x49c] UpTree.leaf) 0x49f [0x49e]
  UpTree.leaf) 0x4a1 [0x4a0] (UpTree.node (UpTree.node UpTree.leaf 0x4a3 [0x4a2] UpTree.leaf)
  0x4a5 [0x4a4] UpTree.leaf))) 0x4a7 [0x4a6] (UpTree.node (UpTree.node (UpTree.node (UpTree.node
  UpTree.leaf 0x4a9 [0x4a8] UpTree.leaf) 0x4ab [0x4aa] UpTree.leaf) 0x4ad [0x4ac] (UpTree.node
  (UpTree.node UpTree.leaf 0x4af [0x4ae] UpTree.leaf) 0x4b1 [0x4b0] UpTree.leaf)) 0x4b3 [0x4b2]
  (UpTree.node (UpTree.node (UpTree.node UpTree.leaf 0x4b5 [0x4b4] UpTree.leaf) 0x4b7 [0x4b6]
  UpTree.leaf) 0x4b9 [0x4b8] (UpTree.node (UpTree.node UpTree.leaf 0x4bb [0x4ba] UpTree.leaf)
  0x4bd [0x4bc] UpTree.leaf)))) 0x4bf [0x4be] (UpTree.node (UpTree.node (UpTree.node (UpTree.node
  (UpTree.node UpTree.leaf 0x4c2 [0x4c1] UpTree.leaf) 0x4c4 [0x4c3] UpTree.leaf) 0x4c6 [0x4c5]
  (UpTree.node (UpTree.node UpTree.leaf 0x4c8 [0x4c7] UpTree.leaf) 0x4ca [0x4c9] UpTree.leaf))
  0x4cc [0x4cb] (UpTree.node (UpTree.node (UpTree.node UpTree.leaf 0x4ce [0x4cd] UpTree.leaf)
  0x4cf [0x4c0] UpTree.leaf) 0x4d1 [0x4d0] (UpTree.node (UpTree.node UpTree.leaf 0x4d3 [0x4d2]
  UpTree.leaf) 0x4d5 [0x4d4] UpTree.leaf))) 0x4d7 [0x4d6] (UpTree.node (UpTree.node (UpTree.node
  (UpTree.node UpTree.leaf 0x4d9 [0x4d8] UpTree.leaf) 0x4db [0x4da] UpTree.leaf) 0x4dd [0x4dc]
  (UpTree.node (UpTree.node UpTree.leaf 0x4df [0x4de] UpTree.leaf) 0x4e1 [0x4e0] UpTree.leaf))
  0x4e3 [0x4e2] (UpTree.node (UpTree.node (UpTree.node UpTree.leaf 0x4e5 [0x4e4] UpTree.leaf)
  0x4e7 [0x4e6] UpTree.leaf) 0x4e9 [0x4e8] (UpTree.node (UpTree.node UpTree.leaf 0x4eb [0x4ea]
  UpTree.leaf) 0x4ed [0x4ec] UpTree.leaf))))) 0x4ef [0x4ee] (UpTree.node (UpTree.node
  (UpTree.node (UpTree.node (UpTree.node (UpTree.node UpTree.leaf 0x4f1 [0x4f0] UpTree.leaf)
  0x4f3 [0x4f2] UpTree.leaf) 0x4f5 [0x4f4] (UpTree.node (UpTree.node UpTree.leaf 0x4f7 [0x4f6]
  UpTree.leaf) 0x4f9 [0x4f8] UpTree.leaf)) 0x4fb [0x4fa] (UpTree.node (UpTree.node (UpTree.node
  UpTree.leaf 0x4fd [0x4fc] UpTree.leaf) 0x4ff [0x4fe] UpTree.leaf) 0x501 [0x500] (UpTree.node
  (UpTree.node UpTree.leaf 0x503 [0x502] UpTree.leaf) 0x505 [0x504] UpTree.leaf))) 0x507 [0x506]
  (UpTree.node (UpTree.node (UpTree.node (UpTree.node UpTree.leaf 0x509 [0x508] UpTree.leaf)
  0x50b [0x50a] UpTree.leaf) 0x50d [0x50c] (UpTree.node (UpTree.node UpTree.leaf 0x50f [0x50e]
  UpTree.leaf) 0x511 [0x510] UpTree.leaf)) 0x513 [0x512] (UpTree.node (UpTree.node (UpTree.node
  UpTree.leaf 0x515 [0x514] UpTree.leaf) 0x517 [0x516] UpTree.leaf) 0x519 [0x518] (UpTree.node
  (UpTree.node UpTree.leaf 0x51b [0x51a] UpTree.leaf) 0x51d [0x51c] UpTree.leaf)))) 0x51f [0x51e]
  (UpTree.node (UpTree.node (UpTree.node (UpTree.node (UpTree.node UpTree.leaf 0x521 [0x520]
  UpTree.leaf) 0x523 [0x522] UpTree.leaf) 0x525 [0x524] (UpTree.node (UpTree.node UpTree.leaf
  0x527 [0x526] UpTree.leaf) 0x529 [0x528] UpTree.leaf)) 0x52b [0x52a] (UpTree.node (UpTree.node
  (UpTree.node UpTree.leaf 0x52d [0x52c] UpTree.leaf) 0x52f [0x52e] UpTree.leaf) 0x561 [0x531]
  (UpTree.node (UpTree.node UpTree.leaf 0x562 [0x532] UpTree.leaf) 0x563 [0x533] UpTree.leaf)))
  0x564 [0x534] (UpTree.node (UpTree.node (UpTree.node (UpTree.node UpTree.leaf 0x565 [0x535]
  UpTree.leaf) 0x566 [0x536] UpTree.leaf) 0x567 [0x537] (UpTree.node (UpTree.node UpTree.leaf
  0x568 [0x538] UpTree.leaf) 0x569 [0x539] UpTree.leaf)) 0x56a [0x53a] (UpTree.node (UpTree.node
  (UpTree.node UpTree.leaf 0x56b [0x53b] UpTree.leaf) 0x56c [0x53c] UpTree.leaf) 0x56d [0x53d]
  (UpTree.node (UpTree.node UpTree.leaf 0x56e [0x53e] UpTree.leaf) 0x56f [0x53f]
  UpTree.leaf))))))

def upperTreeSub6 : UpTree :=
  (UpTree.node (UpTree.node (UpTree.node (UpTree.node (UpTree.node (UpTree.node (UpTree.node
  UpTree.leaf 0x571 [0x541] UpTree.leaf) 0x572 [0x542] UpTree.leaf) 0x573 [0x543] (UpTree.node
  (UpTree.node UpTree.leaf 0x574 [0x544] UpTree.leaf) 0x575 [0x545] UpTree.leaf)) 0x576 [0x546]
  (UpTree.node (UpTree.node (UpTree.node UpTree.leaf 0x577 [0x547] UpTree.leaf) 0x578 [0x548]
  UpTree.leaf) 0x579 [0x549] (UpTree.node (UpTree.node UpTree.leaf 0x57a [0x54a] UpTree.leaf)
  0x57b [0x54b] UpTree.leaf))) 0x57c [0x54c] (UpTree.node (UpTree.node (UpTree.node (UpTree.node
  UpTree.leaf 0x57d [0x54d] UpTree.leaf) 0x57e [0x54e] UpTree.leaf) 0x57f [0x54f] (UpTree.node
  (UpTree.node UpTree.leaf 0x580 [0x550] UpTree.leaf) 0x581 [0x551] UpTree.leaf)) 0x582 [0x552]
  (UpTree.node (UpTree.node (UpTree.node UpTree.leaf 0x583 [0x553] UpTree.leaf) 0x584 [0x554]
  UpTree.leaf) 0x585 [0x555] (UpTree.node (UpTree.node UpTree.leaf 0x586 [0x556] UpTree.leaf)
  0x587 [0x535, 0x552] UpTree.leaf)))) 0x10d0 [0x1c90] (UpTree.node (UpTree.node (UpTree.node
  (UpTree.node (UpTree.node UpTree.leaf 0x10d1 [0x1c91] UpTree.leaf) 0x10d2 [0x1c92] UpTree.leaf)
  0x10d3 [0x1c93] (UpTree.node (UpTree.node UpTree.leaf 0x10d4 [0x1c94] UpTree.leaf) 0x10d5
  [0x1c95] UpTree.leaf)) 0x10d6 [0x1c96] (UpTree.node (UpTree.node (UpTree.node UpTree.leaf
  0x10d7 [0x1c97] UpTree.leaf) 0x10d8 [0x1c98] UpTree.leaf) 0x10d9 [0x1c99] (UpTree.node
  (UpTree.node UpTree.leaf 0x10da [0x1c9a] UpTree.leaf) 0x10db [0x1c9b] UpTree.leaf))) 0x10dc
  [0x1c9c] (UpTree.node (UpTree.node (UpTree.node (UpTree.node UpTree.leaf 0x10dd [0x1c9d]
  UpTree.leaf) 0x10de [0x1c9e] UpTree.leaf) 0x10df [0x1c9f] (UpTree.node (UpTree.node UpTree.leaf
  0x10e0 [0x1ca0] UpTree.leaf) 0x10e1 [0x1ca1] UpTree.leaf)) 0x10e2 [0x1ca2] (UpTree.node
  (UpTree.node (UpTree.node UpTree.leaf 0x10e3 [0x1ca3] UpTree.leaf) 0x10e4 [0x1ca4] UpTree.leaf)
  0x10e5 [0x1ca5] (UpTree.node (UpTree.node UpTree.leaf 0x10e6 [0x1ca6] UpTree.leaf) 0x10e7
  [0x1ca7] UpTree.leaf))))) 0x10e8 [0x1ca8] (UpTree.node (UpTree.node (UpTree.node (UpTree.node
  (UpTree.node (UpTree.node UpTree.leaf 0x10e9 [0x1ca9] UpTree.leaf) 0x10ea [0x1caa] UpTree.leaf)
  0x10eb [0x1cab] (UpTree.node (UpTree.node UpTree.leaf 0x10ec [0x1cac] UpTree.leaf) 0x10ed
  [0x1cad] UpTree.leaf)) 0x10ee [0x1cae] (UpTree.node (UpTree.node (UpTree.node UpTree.leaf
  0x10ef [0x1caf] UpTree.leaf) 0x10f0 [0x1cb0] UpTree.leaf) 0x10f1 [0x1cb1] (UpTree.node
  (UpTree.node UpTree.leaf 0x10f2 [0x1cb2] UpTree.leaf) 0x10f3 [0x1cb3] UpTree.leaf))) 0x10f4
  [0x1cb4] (UpTree.node (UpTree.node (UpTree.node (UpTree.node UpTree.leaf 0x10f5 [0x1cb5]
  UpTree.leaf) 0x10f6 [0x1cb6] UpTree.leaf) 0x10f7 [0x1cb7] (UpTree.node (UpTree.node UpTree.leaf
  0x10f8 [0x1cb8] UpTree.leaf) 0x10f9 [0x1cb9] UpTree.leaf)) 0x10fa [0x1cba] (UpTree.node
  (UpTree.node (UpTree.node UpTree.leaf 0x10fd [0x1cbd] UpTree.leaf) 0x10fe [0x1cbe] UpTree.leaf)
  0x10ff [0x1cbf] (UpTree.node (UpTree.node UpTree.leaf 0x13f8 [0x13f0] UpTree.leaf) 0x13f9
  [0x13f1] UpTree.leaf)))) 0x13fa [0x13f2] (UpTree.node (UpTree.node (UpTree.node (UpTree.node
  (UpTree.node UpTree.leaf 0x13fb [0x13f3] UpTree.leaf) 0x13fc [0x13f4] UpTree.leaf) 0x13fd
  [0x13f5] (UpTree.node (UpTree.node UpTree.leaf 0x1c80 [0x412] UpTree.leaf) 0x1c81 [0x414]
  UpTree.leaf)) 0x1c82 [0x41e] (UpTree.node (UpTree.node (UpTree.node UpTree.leaf 0x1c83 [0x421]
  UpTree.leaf) 0x1c84 [0x422] UpTree.leaf) 0x1c85 [0x422] (UpTree.node (UpTree.node UpTree.leaf
  0x1c86 [0x42a] UpTree.leaf) 0x1c87 [0x462] UpTree.leaf))) 0x1c88 [0xa64a] (UpTree.node
  (UpTree.node (UpTree.node (UpTree.node UpTree.leaf 0x1d79 [0xa77d] UpTree.leaf) 0x1d7d [0x2c63]
  UpTree.leaf) 0x1d8e [0xa7c6] (UpTree.node (UpTree.node UpTree.leaf 0x1e01 [0x1e00] UpTree.leaf)
  0x1e03 [0x1e02] UpTree.leaf)) 0x1e05 [0x1e04] (UpTree.node (UpTree.node (UpTree.node
  UpTree.leaf 0x1e07 [0x1e06] UpTree.leaf) 0x1e09 [0x1e08] UpTree.leaf) 0x1e0b [0x1e0a]
  (UpTree.node UpTree.leaf 0x1e0d [0x1e0c] UpTree.leaf))))))

def upperTreeSub7 : UpTree :=
  (UpTree.node (UpTree.node (UpTree.node (UpTree.node (UpTree.node (UpTree.node (UpTree.node
  UpTree.leaf 0x1e11 [0x1e10] UpTree.leaf) 0x1e13 [0x1e12] UpTree.leaf) 0x1e15 [0x1e14]
  (UpTree.node (UpTree.node UpTree.leaf 0x1e17 [0x1e16] UpTree.leaf) 0x1e19 [0x1e18]
  UpTree.leaf)) 0x1e1b [0x1e1a] (UpTree.node (UpTree.node (UpTree.node UpTree.leaf 0x1e1d
  [0x1e1c] UpTree.leaf) 0x1e1f [0x1e1e] UpTree.leaf) 0x1e21 [0x1e20] (UpTree.node (UpTree.node
  UpTree.leaf 0x1e23 [0x1e22] UpTree.leaf) 0x1e25 [0x1e24] UpTree.leaf))) 0x1e27 [0x1e26]
  (UpTree.node (UpTree.node (UpTree.node (UpTree.node UpTree.leaf 0x1e29 [0x1e28] UpTree.leaf)
  0x1e2b [0x1e2a] UpTree.leaf) 0x1e2d [0x1e2c] (UpTree.node (UpTree.node UpTree.leaf 0x1e2f
  [0x1e2e] UpTree.leaf) 0x1e31 [0x1e30] UpTree.leaf)) 0x1e33 [0x1e32] (UpTree.node (UpTree.node
  (UpTree.node UpTree.leaf 0x1e35 [0x1e34] UpTree.leaf) 0x1e37 [0x1e36] UpTree.leaf) 0x1e39
  [0x1e38] (UpTree.node (UpTree.node UpTree.leaf 0x1e3b [0x1e3a] UpTree.leaf) 0x1e3d [0x1e3c]
  UpTree.leaf)))) 0x1e3f [0x1e3e] (UpTree.node (UpTree.node (UpTree.node (UpTree.node
  (UpTree.node UpTree.leaf 0x1e41 [0x1e40] UpTree.leaf) 0x1e43 [0x1e42] UpTree.leaf) 0x1e45
  [0x1e44] (UpTree.node (UpTree.node UpTree.leaf 0x1e47 [0x1e46] UpTree.leaf) 0x1e49 [0x1e48]
  UpTree.leaf)) 0x1e4b [0x1e4a] (UpTree.node (UpTree.node (UpTree.node UpTree.leaf 0x1e4d
  [0x1e4c] UpTree.leaf) 0x1e4f [0x1e4e] UpTree.leaf) 0x1e51 [0x1e50] (UpTree.node (UpTree.node
  UpTree.leaf 0x1e53 [0x1e52] UpTree.leaf) 0x1e55 [0x1e54] UpTree.leaf))) 0x1e57 [0x1e56]
  (UpTree.node (UpTree.node (UpTree.node (UpTree.node UpTree.leaf 0x1e59 [0x1e58] UpTree.leaf)
  0x1e5b [0x1e5a] UpTree.leaf) 0x1e5d [0x1e5c] (UpTree.node (UpTree.node UpTree.leaf 0x1e5f
  [0x1e5e] UpTree.leaf) 0x1e61 [0x1e60] UpTree.leaf)) 0x1e63 [0x1e62] (UpTree.node (UpTree.node
  (UpTree.node UpTree.leaf 0x1e65 [0x1e64] UpTree.leaf) 0x1e67 [0x1e66] UpTree.leaf) 0x1e69
  [0x1e68] (UpTree.node (UpTree.node UpTree.leaf 0x1e6b [0x1e6a] UpTree.leaf) 0x1e6d [0x1e6c]
  UpTree.leaf))))) 0x1e6f [0x1e6e] (UpTree.node (UpTree.node (UpTree.node (UpTree.node
  (UpTree.node (UpTree.node UpTree.leaf 0x1e71 [0x1e70] UpTree.leaf) 0x1e73 [0x1e72] UpTree.leaf)
  0x1e75 [0x1e74] (UpTree.node (UpTree.node UpTree.leaf 0x1e77 [0x1e76] UpTree.leaf) 0x1e79
  [0x1e78] UpTree.leaf)) 0x1e7b [0x1e7a] (UpTree.node (UpTree.node (UpTree.node UpTree.leaf
  0x1e7d [0x1e7c] UpTree.leaf) 0x1e7f [0x1e7e] UpTree.leaf) 0x1e81 [0x1e80] (UpTree.node
  (UpTree.node UpTree.leaf 0x1e83 [0x1e82] UpTree.leaf) 0x1e85 [0x1e84] UpTree.leaf))) 0x1e87
  [0x1e86] (UpTree.node (UpTree.node (UpTree.node (UpTree.node UpTree.leaf 0x1e89 [0x1e88]
  UpTree.leaf) 0x1e8b [0x1e8a] UpTree.leaf) 0x1e8d [0x1e8c] (UpTree.node (UpTree.node UpTree.leaf
  0x1e8f [0x1e8e] UpTree.leaf) 0x1e91 [0x1e90] UpTree.leaf)) 0x1e93 [0x1e92] (UpTree.node
  (UpTree.node (UpTree.node UpTree.leaf 0x1e95 [0x1e94] UpTree.leaf) 0x1e96 [0x48, 0x331]
  UpTree.leaf) 0x1e97 [0x54, 0x308] (UpTree.node (UpTree.node UpTree.leaf 0x1e98 [0x57, 0x30a]
  UpTree.leaf) 0x1e99 [0x59, 0x30a] UpTree.leaf)))) 0x1e9a [0x41, 0x2be] (UpTree.node
  (UpTree.node (UpTree.node (UpTree.node (UpTree.node UpTree.leaf 0x1e9b [0x1e60] UpTree.leaf)
  0x1ea1 [0x1ea0] UpTree.leaf) 0x1ea3 [0x1ea2] (UpTree.node (UpTree.node UpTree.leaf 0x1ea5
  [0x1ea4] UpTree.leaf) 0x1ea7 [0x1ea6] UpTree.leaf)) 0x1ea9 [0x1ea8] (UpTree.node (UpTree.node
  (UpTree.node UpTree.leaf 0x1eab [0x1eaa] UpTree.leaf) 0x1ead [0x1eac] UpTree.leaf) 0x1eaf
  [0x1eae] (UpTree.node (UpTree.node UpTree.leaf 0x1eb1 [0x1eb0] UpTree.leaf) 0x1eb3 [0x1eb2]
  UpTree.leaf))) 0x1eb5 [0x1eb4] (UpTree.node (UpTree.node (UpTree.node (UpTree.node UpTree.leaf
  0x1eb7 [0x1eb6] UpTree.leaf) 0x1eb9 [0x1eb8] UpTree.leaf) 0x1ebb [0x1eba] (UpTree.node
  (UpTree.node UpTree.leaf 0x1ebd [0x1ebc] UpTree.leaf) 0x1ebf [0x1ebe] UpTree.leaf)) 0x1ec1
  [0x1ec0] (UpTree.node (UpTree.node (UpTree.node UpTree.leaf 0x1ec3 [0x1ec2] UpTree.leaf) 0x1ec5
  [0x1ec4] UpTree.leaf) 0x1ec7 [0x1ec6] (UpTree.node UpTree.leaf 0x1ec9 [0x1ec8]
  UpTree.leaf))))))

def upperTreeSub8 : UpTree :=
  (UpTree.node (UpTree.node (UpTree.node (UpTree.node (UpTree.node (UpTree.node (UpTree.node
  UpTree.leaf 0x1ecd [0x1ecc] UpTree.leaf) 0x1ecf [0x1ece] UpTree.leaf) 0x1ed1 [0x1ed0]
  (UpTree.node (UpTree.node UpTree.leaf 0x1ed3 [0x1ed2] UpTree.leaf) 0x1ed5 [0x1ed4]
  UpTree.leaf)) 0x1ed7 [0x1ed6] (UpTree.node (UpTree.node (UpTree.node UpTree.leaf 0x1ed9
  [0x1ed8] UpTree.leaf) 0x1edb [0x1eda] UpTree.leaf) 0x1edd [0x1edc] (UpTree.node (UpTree.node
  UpTree.leaf 0x1edf [0x1ede] UpTree.leaf) 0x1ee1 [0x1ee0] UpTree.leaf))) 0x1ee3 [0x1ee2]
  (UpTree.node (UpTree.node (UpTree.node (UpTree.node UpTree.leaf 0x1ee5 [0x1ee4] UpTree.leaf)
  0x1ee7 [0x1ee6] UpTree.leaf) 0x1ee9 [0x1ee8] (UpTree.node (UpTree.node UpTree.leaf 0x1eeb
  [0x1eea] UpTree.leaf) 0x1eed [0x1eec] UpTree.leaf)) 0x1eef [0x1eee] (UpTree.node (UpTree.node
  (UpTree.node UpTree.leaf 0x1ef1 [0x1ef0] UpTree.leaf) 0x1ef3 [0x1ef2] UpTree.leaf) 0x1ef5
  [0x1ef4] (UpTree.node (UpTree.node UpTree.leaf 0x1ef7 [0x1ef6] UpTree.leaf) 0x1ef9 [0x1ef8]
  UpTree.leaf)))) 0x1efb [0x1efa] (UpTree.node (UpTree.node (UpTree.node (UpTree.node
  (UpTree.node UpTree.leaf 0x1efd [0x1efc] UpTree.leaf) 0x1eff [0x1efe] UpTree.leaf) 0x1f00
  [0x1f08] (UpTree.node (UpTree.node UpTree.leaf 0x1f01 [0x1f09] UpTree.leaf) 0x1f02 [0x1f0a]
  UpTree.leaf)) 0x1f03 [0x1f0b] (UpTree.node (UpTree.node (UpTree.node UpTree.leaf 0x1f04
  [0x1f0c] UpTree.leaf) 0x1f05 [0x1f0d] UpTree.leaf) 0x1f06 [0x1f0e] (UpTree.node (UpTree.node
  UpTree.leaf 0x1f07 [0x1f0f] UpTree.leaf) 0x1f10 [0x1f18] UpTree.leaf))) 0x1f11 [0x1f19]
  (UpTree.node (UpTree.node (UpTree.node (UpTree.node UpTree.leaf 0x1f12 [0x1f1a] UpTree.leaf)
  0x1f13 [0x1f1b] UpTree.leaf) 0x1f14 [0x1f1c] (UpTree.node (UpTree.node UpTree.leaf 0x1f15
  [0x1f1d] UpTree.leaf) 0x1f20 [0x1f28] UpTree.leaf)) 0x1f21 [0x1f29] (UpTree.node (UpTree.node
  (UpTree.node UpTree.leaf 0x1f22 [0x1f2a] UpTree.leaf) 0x1f23 [0x1f2b] UpTree.leaf) 0x1f24
  [0x1f2c] (UpTree.node (UpTree.node UpTree.leaf 0x1f25 [0x1f2d] UpTree.leaf) 0x1f26 [0x1f2e]
  UpTree.leaf))))) 0x1f27 [0x1f2f] (UpTree.node (UpTree.node (UpTree.node (UpTree.node
  (UpTree.node (UpTree.node UpTree.leaf 0x1f30 [0x1f38] UpTree.leaf) 0x1f31 [0x1f39] UpTree.leaf)
  0x1f32 [0x1f3a] (UpTree.node (UpTree.node UpTree.leaf 0x1f33 [0x1f3b] UpTree.leaf) 0x1f34
  [0x1f3c] UpTree.leaf)) 0x1f35 [0x1f3d] (UpTree.node (UpTree.node (UpTree.node UpTree.leaf
  0x1f36 [0x1f3e] UpTree.leaf) 0x1f37 [0x1f3f] UpTree.leaf) 0x1f40 [0x1f48] (UpTree.node
  (UpTree.node UpTree.leaf 0x1f41 [0x1f49] UpTree.leaf) 0x1f42 [0x1f4a] UpTree.leaf))) 0x1f43
  [0x1f4b] (UpTree.node (UpTree.node (UpTree.node (UpTree.node UpTree.leaf 0x1f44 [0x1f4c]
  UpTree.leaf) 0x1f45 [0x1f4d] UpTree.leaf) 0x1f50 [0x3a5, 0x313] (UpTree.node (UpTree.node
  UpTree.leaf 0x1f51 [0x1f59] UpTree.leaf) 0x1f52 [0x3a5, 0x313, 0x300] UpTree.leaf)) 0x1f53
  [0x1f5b] (UpTree.node (UpTree.node (UpTree.node UpTree.leaf 0x1f54 [0x3a5, 0x313, 0x301]
  UpTree.leaf) 0x1f55 [0x1f5d] UpTree.leaf) 0x1f56 [0x3a5, 0x313, 0x342] (UpTree.node
  (UpTree.node UpTree.leaf 0x1f57 [0x1f5f] UpTree.leaf) 0x1f60 [0x1f68] UpTree.leaf)))) 0x1f61
  [0x1f69] (UpTree.node (UpTree.node (UpTree.node (UpTree.node (UpTree.node UpTree.leaf 0x1f62
  [0x1f6a] UpTree.leaf) 0x1f63 [0x1f6b] UpTree.leaf) 0x1f64 [0x1f6c] (UpTree.node (UpTree.node
  UpTree.leaf 0x1f65 [0x1f6d] UpTree.leaf) 0x1f66 [0x1f6e] UpTree.leaf)) 0x1f67 [0x1f6f]
  (UpTree.node (UpTree.node (UpTree.node UpTree.leaf 0x1f70 [0x1fba] UpTree.leaf) 0x1f71 [0x1fbb]
  UpTree.leaf) 0x1f72 [0x1fc8] (UpTree.node (UpTree.node UpTree.leaf 0x1f73 [0x1fc9] UpTree.leaf)
  0x1f74 [0x1fca] UpTree.leaf))) 0x1f75 [0x1fcb] (UpTree.node (UpTree.node (UpTree.node
  (UpTree.node UpTree.leaf 0x1f76 [0x1fda] UpTree.leaf) 0x1f77 [0x1fdb] UpTree.leaf) 0x1f78
  [0x1ff8] (UpTree.node (UpTree.node UpTree.leaf 0x1f79 [0x1ff9] UpTree.leaf) 0x1f7a [0x1fea]
  UpTree.leaf)) 0x1f7b [0x1feb] (UpTree.node (UpTree.node (UpTree.node UpTree.leaf 0x1f7c
  [0x1ffa] UpTree.leaf) 0x1f7d [0x1ffb] UpTree.leaf) 0x1f80 [0x1f08, 0x399] (UpTree.node
  UpTree.leaf 0x1f81 [0x1f09, 0x399] UpTree.leaf))))))

def upperTreeSub9 : UpTree :=
  (UpTree.node (UpTree.node (UpTree.node (UpTree.node (UpTree.node (UpTree.node (UpTree.node
  UpTree.leaf 0x1f83 [0x1f0b, 0x399] UpTree.leaf) 0x1f84 [0x1f0c, 0x399] UpTree.leaf) 0x1f85
  [0x1f0d, 0x399] (UpTree.node (UpTree.node UpTree.leaf 0x1f86 [0x1f0e, 0x399] UpTree.leaf)
  0x1f87 [0x1f0f, 0x399] UpTree.leaf)) 0x1f88 [0x1f08, 0x399] (UpTree.node (UpTree.node
  (UpTree.node UpTree.leaf 0x1f89 [0x1f09, 0x399] UpTree.leaf) 0x1f8a [0x1f0a, 0x399]
  UpTree.leaf) 0x1f8b [0x1f0b, 0x399] (UpTree.node (UpTree.node UpTree.leaf 0x1f8c [0x1f0c,
  0x399] UpTree.leaf) 0x1f8d [0x1f0d, 0x399] UpTree.leaf))) 0x1f8e [0x1f0e, 0x399] (UpTree.node
  (UpTree.node (UpTree.node (UpTree.node UpTree.leaf 0x1f8f [0x1f0f, 0x399] UpTree.leaf) 0x1f90
  [0x1f28, 0x399] UpTree.leaf) 0x1f91 [0x1f29, 0x399] (UpTree.node (UpTree.node UpTree.leaf
  0x1f92 [0x1f2a, 0x399] UpTree.leaf) 0x1f93 [0x1f2b, 0x399] UpTree.leaf)) 0x1f94 [0x1f2c, 0x399]
  (UpTree.node (UpTree.node (UpTree.node UpTree.leaf 0x1f95 [0x1f2d, 0x399] UpTree.leaf) 0x1f96
  [0x1f2e, 0x399] UpTree.leaf) 0x1f97 [0x1f2f, 0x399] (UpTree.node (UpTree.node UpTree.leaf
  0x1f98 [0x1f28, 0x399] UpTree.leaf) 0x1f99 [0x1f29, 0x399] UpTree.leaf)))) 0x1f9a [0x1f2a,
  0x399] (UpTree.node (UpTree.node (UpTree.node (UpTree.node (UpTree.node UpTree.leaf 0x1f9b
  [0x1f2b, 0x399] UpTree.leaf) 0x1f9c [0x1f2c, 0x399] UpTree.leaf) 0x1f9d [0x1f2d, 0x399]
  (UpTree.node (UpTree.node UpTree.leaf 0x1f9e [0x1f2e, 0x399] UpTree.leaf) 0x1f9f [0x1f2f,
  0x399] UpTree.leaf)) 0x1fa0 [0x1f68, 0x399] (UpTree.node (UpTree.node (UpTree.node UpTree.leaf
  0x1fa1 [0x1f69, 0x399] UpTree.leaf) 0x1fa2 [0x1f6a, 0x399] UpTree.leaf) 0x1fa3 [0x1f6b, 0x399]
  (UpTree.node (UpTree.node UpTree.leaf 0x1fa4 [0x1f6c, 0x399] UpTree.leaf) 0x1fa5 [0x1f6d,
  0x399] UpTree.leaf))) 0x1fa6 [0x1f6e, 0x399] (UpTree.node (UpTree.node (UpTree.node
  (UpTree.node UpTree.leaf 0x1fa7 [0x1f6f, 0x399] UpTree.leaf) 0x1fa8 [0x1f68, 0x399]
  UpTree.leaf) 0x1fa9 [0x1f69, 0x399] (UpTree.node (UpTree.node UpTree.leaf 0x1faa [0x1f6a,
  0x399] UpTree.leaf) 0x1fab [0x1f6b, 0x399] UpTree.leaf)) 0x1fac [0x1f6c, 0x399] (UpTree.node
  (UpTree.node (UpTree.node UpTree.leaf 0x1fad [0x1f6d, 0x399] UpTree.leaf) 0x1fae [0x1f6e,
  0x399] UpTree.leaf) 0x1faf [0x1f6f, 0x399] (UpTree.node (UpTree.node UpTree.leaf 0x1fb0
  [0x1fb8] UpTree.leaf) 0x1fb1 [0x1fb9] UpTree.leaf))))) 0x1fb2 [0x1fba, 0x399] (UpTree.node
  (UpTree.node (UpTree.node (UpTree.node (UpTree.node (UpTree.node UpTree.leaf 0x1fb3 [0x391,
  0x399] UpTree.leaf) 0x1fb4 [0x386, 0x399] UpTree.leaf) 0x1fb6 [0x391, 0x342] (UpTree.node
  (UpTree.node UpTree.leaf 0x1fb7 [0x391, 0x342, 0x399] UpTree.leaf) 0x1fbc [0x391, 0x399]
  UpTree.leaf)) 0x1fbe [0x399] (UpTree.node (UpTree.node (UpTree.node UpTree.leaf 0x1fc2 [0x1fca,
  0x399] UpTree.leaf) 0x1fc3 [0x397, 0x399] UpTree.leaf) 0x1fc4 [0x389, 0x399] (UpTree.node
  (UpTree.node UpTree.leaf 0x1fc6 [0x397, 0x342] UpTree.leaf) 0x1fc7 [0x397, 0x342, 0x399]
  UpTree.leaf))) 0x1fcc [0x397, 0x399] (UpTree.node (UpTree.node (UpTree.node (UpTree.node
  UpTree.leaf 0x1fd0 [0x1fd8] UpTree.leaf) 0x1fd1 [0x1fd9] UpTree.leaf) 0x1fd2 [0x399, 0x308,
  0x300] (UpTree.node (UpTree.node UpTree.leaf 0x1fd3 [0x399, 0x308, 0x301] UpTree.leaf) 0x1fd6
  [0x399, 0x342] UpTree.leaf)) 0x1fd7 [0x399, 0x308, 0x342] (UpTree.node (UpTree.node
  (UpTree.node UpTree.leaf 0x1fe0 [0x1fe8] UpTree.leaf) 0x1fe1 [0x1fe9] UpTree.leaf) 0x1fe2
  [0x3a5, 0x308, 0x300] (UpTree.node (UpTree.node UpTree.leaf 0x1fe3 [0x3a5, 0x308, 0x301]
  UpTree.leaf) 0x1fe4 [0x3a1, 0x313] UpTree.leaf)))) 0x1fe5 [0x1fec] (UpTree.node (UpTree.node
  (UpTree.node (UpTree.node (UpTree.node UpTree.leaf 0x1fe6 [0x3a5, 0x342] UpTree.leaf) 0x1fe7
  [0x3a5, 0x308, 0x342] UpTree.leaf) 0x1ff2 [0x1ffa, 0x399] (UpTree.node (UpTree.node UpTree.leaf
  0x1ff3 [0x3a9, 0x399] UpTree.leaf) 0x1ff4 [0x38f, 0x399] UpTree.leaf)) 0x1ff6 [0x3a9, 0x342]
  (UpTree.node (UpTree.node (UpTree.node UpTree.leaf 0x1ff7 [0x3a9, 0x342, 0x399] UpTree.leaf)
  0x1ffc [0x3a9, 0x399] UpTree.leaf) 0x214e [0x2132] (UpTree.node (UpTree.node UpTree.leaf 0x2170
  [0x2160] UpTree.leaf) 0x2171 [0x2161] UpTree.leaf))) 0x2172 [0x2162] (UpTree.node (UpTree.node
  (UpTree.node (UpTree.node UpTree.leaf 0x2173 [0x2163] UpTree.leaf) 0x2174 [0x2164] UpTree.leaf)
  0x2175 [0x2165] (UpTree.node (UpTree.node UpTree.leaf 0x2176 [0x2166] UpTree.leaf) 0x2177
  [0x2167] UpTree.leaf)) 0x2178 [0x2168] (UpTree.node (UpTree.node (UpTree.node UpTree.leaf
  0x2179 [0x2169] UpTree.leaf) 0x217a [0x216a] UpTree.leaf) 0x217b [0x216b] (UpTree.node
  (UpTree.node UpTree.leaf 0x217c [0x216c] UpTree.leaf) 0x217d [0x216d] UpTree.leaf))))))

def upperTreeSub10 : UpTree :=
  (UpTree.node (UpTree.node (UpTree.node (UpTree.node (UpTree.node (UpTree.node (UpTree.node
  UpTree.leaf 0x217f [0x216f] UpTree.leaf) 0x2184 [0x2183] UpTree.leaf) 0x24d0 [0x24b6]
  (UpTree.node (UpTree.node UpTree.leaf 0x24d1 [0x24b7] UpTree.leaf) 0x24d2 [0x24b8]
  UpTree.leaf)) 0x24d3 [0x24b9] (UpTree.node (UpTree.node (UpTree.node UpTree.leaf 0x24d4
  [0x24ba] UpTree.leaf) 0x24d5 [0x24bb] UpTree.leaf) 0x24d6 [0x24bc] (UpTree.node (UpTree.node
  UpTree.leaf 0x24d7 [0x24bd] UpTree.leaf) 0x24d8 [0x24be] UpTree.leaf))) 0x24d9 [0x24bf]
  (UpTree.node (UpTree.node (UpTree.node (UpTree.node UpTree.leaf 0x24da [0x24c0] UpTree.leaf)
  0x24db [0x24c1] UpTree.leaf) 0x24dc [0x24c2] (UpTree.node (UpTree.node UpTree.leaf 0x24dd
  [0x24c3] UpTree.leaf) 0x24de [0x24c4] UpTree.leaf)) 0x24df [0x24c5] (UpTree.node (UpTree.node
  (UpTree.node UpTree.leaf 0x24e0 [0x24c6] UpTree.leaf) 0x24e1 [0x24c7] UpTree.leaf) 0x24e2
  [0x24c8] (UpTree.node (UpTree.node UpTree.leaf 0x24e3 [0x24c9] UpTree.leaf) 0x24e4 [0x24ca]
  UpTree.leaf)))) 0x24e5 [0x24cb] (UpTree.node (UpTree.node (UpTree.node (UpTree.node
  (UpTree.node UpTree.leaf 0x24e6 [0x24cc] UpTree.leaf) 0x24e7 [0x24cd] UpTree.leaf) 0x24e8
  [0x24ce] (UpTree.node (UpTree.node UpTree.leaf 0x24e9 [0x24cf] UpTree.leaf) 0x2c30 [0x2c00]
  UpTree.leaf)) 0x2c31 [0x2c01] (UpTree.node (UpTree.node (UpTree.node UpTree.leaf 0x2c32
  [0x2c02] UpTree.leaf) 0x2c33 [0x2c03] UpTree.leaf) 0x2c34 [0x2c04] (UpTree.node (UpTree.node
  UpTree.leaf 0x2c35 [0x2c05] UpTree.leaf) 0x2c36 [0x2c06] UpTree.leaf))) 0x2c37 [0x2c07]
  (UpTree.node (UpTree.node (UpTree.node (UpTree.node UpTree.leaf 0x2c38 [0x2c08] UpTree.leaf)
  0x2c39 [0x2c09] UpTree.leaf) 0x2c3a [0x2c0a] (UpTree.node (UpTree.node UpTree.leaf 0x2c3b
  [0x2c0b] UpTree.leaf) 0x2c3c [0x2c0c] UpTree.leaf)) 0x2c3d [0x2c0d] (UpTree.node (UpTree.node
  (UpTree.node UpTree.leaf 0x2c3e [0x2c0e] UpTree.leaf) 0x2c3f [0x2c0f] UpTree.leaf) 0x2c40
  [0x2c10] (UpTree.node (UpTree.node UpTree.leaf 0x2c41 [0x2c11] UpTree.leaf) 0x2c42 [0x2c12]
  UpTree.leaf))))) 0x2c43 [0x2c13] (UpTree.node (UpTree.node (UpTree.node (UpTree.node
  (UpTree.node (UpTree.node UpTree.leaf 0x2c44 [0x2c14] UpTree.leaf) 0x2c45 [0x2c15] UpTree.leaf)
  0x2c46 [0x2c16] (UpTree.node (UpTree.node UpTree.leaf 0x2c47 [0x2c17] UpTree.leaf) 0x2c48
  [0x2c18] UpTree.leaf)) 0x2c49 [0x2c19] (UpTree.node (UpTree.node (UpTree.node UpTree.leaf
  0x2c4a [0x2c1a] UpTree.leaf) 0x2c4b [0x2c1b] UpTree.leaf) 0x2c4c [0x2c1c] (UpTree.node
  (UpTree.node UpTree.leaf 0x2c4d [0x2c1d] UpTree.leaf) 0x2c4e [0x2c1e] UpTree.leaf))) 0x2c4f
  [0x2c1f] (UpTree.node (UpTree.node (UpTree.node (UpTree.node UpTree.leaf 0x2c50 [0x2c20]
  UpTree.leaf) 0x2c51 [0x2c21] UpTree.leaf) 0x2c52 [0x2c22] (UpTree.node (UpTree.node UpTree.leaf
  0x2c53 [0x2c23] UpTree.leaf) 0x2c54 [0x2c24] UpTree.leaf)) 0x2c55 [0x2c25] (UpTree.node
  (UpTree.node (UpTree.node UpTree.leaf 0x2c56 [0x2c26] UpTree.leaf) 0x2c57 [0x2c27] UpTree.leaf)
  0x2c58 [0x2c28] (UpTree.node (UpTree.node UpTree.leaf 0x2c59 [0x2c29] UpTree.leaf) 0x2c5a
  [0x2c2a] UpTree.leaf)))) 0x2c5b [0x2c2b] (UpTree.node (UpTree.node (UpTree.node (UpTree.node
  (UpTree.node UpTree.leaf 0x2c5c [0x2c2c] UpTree.leaf) 0x2c5d [0x2c2d] UpTree.leaf) 0x2c5e
  [0x2c2e] (UpTree.node (UpTree.node UpTree.leaf 0x2c5f [0x2c2f] UpTree.leaf) 0x2c61 [0x2c60]
  UpTree.leaf)) 0x2c65 [0x23a] (UpTree.node (UpTree.node (UpTree.node UpTree.leaf 0x2c66 [0x23e]
  UpTree.leaf) 0x2c68 [0x2c67] UpTree.leaf) 0x2c6a [0x2c69] (UpTree.node (UpTree.node UpTree.leaf
  0x2c6c [0x2c6b] UpTree.leaf) 0x2c73 [0x2c72] UpTree.leaf))) 0x2c76 [0x2c75] (UpTree.node
  (UpTree.node (UpTree.node (UpTree.node UpTree.leaf 0x2c81 [0x2c80] UpTree.leaf) 0x2c83 [0x2c82]
  UpTree.leaf) 0x2c85 [0x2c84] (UpTree.node (UpTree.node UpTree.leaf 0x2c87 [0x2c86] UpTree.leaf)
  0x2c89 [0x2c88] UpTree.leaf)) 0x2c8b [0x2c8a] (UpTree.node (UpTree.node (UpTree.node
  UpTree.leaf 0x2c8d [0x2c8c] UpTree.leaf) 0x2c8f [0x2c8e] UpTree.leaf) 0x2c91 [0x2c90]
  (UpTree.node UpTree.leaf 0x2c93 [0x2c92] UpTree.leaf))))))

def upperTreeSub11 : UpTree :=
  (UpTree.node (UpTree.node (UpTree.node (UpTree.node (UpTree.node (UpTree.node (UpTree.node
  UpTree.leaf 0x2c97 [0x2c96] UpTree.leaf) 0x2c99 [0x2c98] UpTree.leaf) 0x2c9b [0x2c9a]
  (UpTree.node (UpTree.node UpTree.leaf 0x2c9d [0x2c9c] UpTree.leaf) 0x2c9f [0x2c9e]
  UpTree.leaf)) 0x2ca1 [0x2ca0] (UpTree.node (UpTree.node (UpTree.node UpTree.leaf 0x2ca3
  [0x2ca2] UpTree.leaf) 0x2ca5 [0x2ca4] UpTree.leaf) 0x2ca7 [0x2ca6] (UpTree.node (UpTree.node
  UpTree.leaf 0x2ca9 [0x2ca8] UpTree.leaf) 0x2cab [0x2caa] UpTree.leaf))) 0x2cad [0x2cac]
  (UpTree.node (UpTree.node (UpTree.node (UpTree.node UpTree.leaf 0x2caf [0x2cae] UpTree.leaf)
  0x2cb1 [0x2cb0] UpTree.leaf) 0x2cb3 [0x2cb2] (UpTree.node (UpTree.node UpTree.leaf 0x2cb5
  [0x2cb4] UpTree.leaf) 0x2cb7 [0x2cb6] UpTree.leaf)) 0x2cb9 [0x2cb8] (UpTree.node (UpTree.node
  (UpTree.node UpTree.leaf 0x2cbb [0x2cba] UpTree.leaf) 0x2cbd [0x2cbc] UpTree.leaf) 0x2cbf
  [0x2cbe] (UpTree.node (UpTree.node UpTree.leaf 0x2cc1 [0x2cc0] UpTree.leaf) 0x2cc3 [0x2cc2]
  UpTree.leaf)))) 0x2cc5 [0x2cc4] (UpTree.node (UpTree.node (UpTree.node (UpTree.node
  (UpTree.node UpTree.leaf 0x2cc7 [0x2cc6] UpTree.leaf) 0x2cc9 [0x2cc8] UpTree.leaf) 0x2ccb
  [0x2cca] (UpTree.node (UpTree.node UpTree.leaf 0x2ccd [0x2ccc] UpTree.leaf) 0x2ccf [0x2cce]
  UpTree.leaf)) 0x2cd1 [0x2cd0] (UpTree.node (UpTree.node (UpTree.node UpTree.leaf 0x2cd3
  [0x2cd2] UpTree.leaf) 0x2cd5 [0x2cd4] UpTree.leaf) 0x2cd7 [0x2cd6] (UpTree.node (UpTree.node
  UpTree.leaf 0x2cd9 [0x2cd8] UpTree.leaf) 0x2cdb [0x2cda] UpTree.leaf))) 0x2cdd [0x2cdc]
  (UpTree.node (UpTree.node (UpTree.node (UpTree.node UpTree.leaf 0x2cdf [0x2cde] UpTree.leaf)
  0x2ce1 [0x2ce0] UpTree.leaf) 0x2ce3 [0x2ce2] (UpTree.node (UpTree.node UpTree.leaf 0x2cec
  [0x2ceb] UpTree.leaf) 0x2cee [0x2ced] UpTree.leaf)) 0x2cf3 [0x2cf2] (UpTree.node (UpTree.node
  (UpTree.node UpTree.leaf 0x2d00 [0x10a0] UpTree.leaf) 0x2d01 [0x10a1] UpTree.leaf) 0x2d02
  [0x10a2] (UpTree.node (UpTree.node UpTree.leaf 0x2d03 [0x10a3] UpTree.leaf) 0x2d04 [0x10a4]
  UpTree.leaf))))) 0x2d05 [0x10a5] (UpTree.node (UpTree.node (UpTree.node (UpTree.node
  (UpTree.node (UpTree.node UpTree.leaf 0x2d06 [0x10a6] UpTree.leaf) 0x2d07 [0x10a7] UpTree.leaf)
  0x2d08 [0x10a8] (UpTree.node (UpTree.node UpTree.leaf 0x2d09 [0x10a9] UpTree.leaf) 0x2d0a
  [0x10aa] UpTree.leaf)) 0x2d0b [0x10ab] (UpTree.node (UpTree.node (UpTree.node UpTree.leaf
  0x2d0c [0x10ac] UpTree.leaf) 0x2d0d [0x10ad] UpTree.leaf) 0x2d0e [0x10ae] (UpTree.node
  (UpTree.node UpTree.leaf 0x2d0f [0x10af] UpTree.leaf) 0x2d10 [0x10b0] UpTree.leaf))) 0x2d11
  [0x10b1] (UpTree.node (UpTree.node (UpTree.node (UpTree.node UpTree.leaf 0x2d12 [0x10b2]
  UpTree.leaf) 0x2d13 [0x10b3] UpTree.leaf) 0x2d14 [0x10b4] (UpTree.node (UpTree.node UpTree.leaf
  0x2d15 [0x10b5] UpTree.leaf) 0x2d16 [0x10b6] UpTree.leaf)) 0x2d17 [0x10b7] (UpTree.node
  (UpTree.node (UpTree.node UpTree.leaf 0x2d18 [0x10b8] UpTree.leaf) 0x2d19 [0x10b9] UpTree.leaf)
  0x2d1a [0x10ba] (UpTree.node (UpTree.node UpTree.leaf 0x2d1b [0x10bb] UpTree.leaf) 0x2d1c
  [0x10bc] UpTree.leaf)))) 0x2d1d [0x10bd] (UpTree.node (UpTree.node (UpTree.node (UpTree.node
  (UpTree.node UpTree.leaf 0x2d1e [0x10be] UpTree.leaf) 0x2d1f [0x10bf] UpTree.leaf) 0x2d20
  [0x10c0] (UpTree.node (UpTree.node UpTree.leaf 0x2d21 [0x10c1] UpTree.leaf) 0x2d22 [0x10c2]
  UpTree.leaf)) 0x2d23 [0x10c3] (UpTree.node (UpTree.node (UpTree.node UpTree.leaf 0x2d24
  [0x10c4] UpTree.leaf) 0x2d25 [0x10c5] UpTree.leaf) 0x2d27 [0x10c7] (UpTree.node (UpTree.node
  UpTree.leaf 0x2d2d [0x10cd] UpTree.leaf) 0xa641 [0xa640] UpTree.leaf))) 0xa643 [0xa642]
  (UpTree.node (UpTree.node (UpTree.node (UpTree.node UpTree.leaf 0xa645 [0xa644] UpTree.leaf)
  0xa647 [0xa646] UpTree.leaf) 0xa649 [0xa648] (UpTree.node (UpTree.node UpTree.leaf 0xa64b
  [0xa64a] UpTree.leaf) 0xa64d [0xa64c] UpTree.leaf)) 0xa64f [0xa64e] (UpTree.node (UpTree.node
  (UpTree.node UpTree.leaf 0xa651 [0xa650] UpTree.leaf) 0xa653 [0xa652] UpTree.leaf) 0xa655
  [0xa654] (UpTree.node (UpTree.node UpTree.leaf 0xa657 [0xa656] UpTree.leaf) 0xa659 [0xa658]
  UpTree.leaf))))))

def upperTreeSub12 : UpTree :=
  (UpTree.node (UpTree.node (UpTree.node (UpTree.node (UpTree.node (UpTree.node (UpTree.node
  UpTree.leaf 0xa65d [0xa65c] UpTree.leaf) 0xa65f [0xa65e] UpTree.leaf) 0xa661 [0xa660]
  (UpTree.node (UpTree.node UpTree.leaf 0xa663 [0xa662] UpTree.leaf) 0xa665 [0xa664]
  UpTree.leaf)) 0xa667 [0xa666] (UpTree.node (UpTree.node (UpTree.node UpTree.leaf 0xa669
  [0xa668] UpTree.leaf) 0xa66b [0xa66a] UpTree.leaf) 0xa66d [0xa66c] (UpTree.node (UpTree.node
  UpTree.leaf 0xa681 [0xa680] UpTree.leaf) 0xa683 [0xa682] UpTree.leaf))) 0xa685 [0xa684]
  (UpTree.node (UpTree.node (UpTree.node (UpTree.node UpTree.leaf 0xa687 [0xa686] UpTree.leaf)
  0xa689 [0xa688] UpTree.leaf) 0xa68b [0xa68a] (UpTree.node (UpTree.node UpTree.leaf 0xa68d
  [0xa68c] UpTree.leaf) 0xa68f [0xa68e] UpTree.leaf)) 0xa691 [0xa690] (UpTree.node (UpTree.node
  (UpTree.node UpTree.leaf 0xa693 [0xa692] UpTree.leaf) 0xa695 [0xa694] UpTree.leaf) 0xa697
  [0xa696] (UpTree.node (UpTree.node UpTree.leaf 0xa699 [0xa698] UpTree.leaf) 0xa69b [0xa69a]
  UpTree.leaf)))) 0xa723 [0xa722] (UpTree.node (UpTree.node (UpTree.node (UpTree.node
  (UpTree.node UpTree.leaf 0xa725 [0xa724] UpTree.leaf) 0xa727 [0xa726] UpTree.leaf) 0xa729
  [0xa728] (UpTree.node (UpTree.node UpTree.leaf 0xa72b [0xa72a] UpTree.leaf) 0xa72d [0xa72c]
  UpTree.leaf)) 0xa72f [0xa72e] (UpTree.node (UpTree.node (UpTree.node UpTree.leaf 0xa733
  [0xa732] UpTree.leaf) 0xa735 [0xa734] UpTree.leaf) 0xa737 [0xa736] (UpTree.node (UpTree.node
  UpTree.leaf 0xa739 [0xa738] UpTree.leaf) 0xa73b [0xa73a] UpTree.leaf))) 0xa73d [0xa73c]
  (UpTree.node (UpTree.node (UpTree.node (UpTree.node UpTree.leaf 0xa73f [0xa73e] UpTree.leaf)
  0xa741 [0xa740] UpTree.leaf) 0xa743 [0xa742] (UpTree.node (UpTree.node UpTree.leaf 0xa745
  [0xa744] UpTree.leaf) 0xa747 [0xa746] UpTree.leaf)) 0xa749 [0xa748] (UpTree.node (UpTree.node
  (UpTree.node UpTree.leaf 0xa74b [0xa74a] UpTree.leaf) 0xa74d [0xa74c] UpTree.leaf) 0xa74f
  [0xa74e] (UpTree.node (UpTree.node UpTree.leaf 0xa751 [0xa750] UpTree.leaf) 0xa753 [0xa752]
  UpTree.leaf))))) 0xa755 [0xa754] (UpTree.node (UpTree.node (UpTree.node (UpTree.node
  (UpTree.node (UpTree.node UpTree.leaf 0xa757 [0xa756] UpTree.leaf) 0xa759 [0xa758] UpTree.leaf)
  0xa75b [0xa75a] (UpTree.node (UpTree.node UpTree.leaf 0xa75d [0xa75c] UpTree.leaf) 0xa75f
  [0xa75e] UpTree.leaf)) 0xa761 [0xa760] (UpTree.node (UpTree.node (UpTree.node UpTree.leaf
  0xa763 [0xa762] UpTree.leaf) 0xa765 [0xa764] UpTree.leaf) 0xa767 [0xa766] (UpTree.node
  (UpTree.node UpTree.leaf 0xa769 [0xa768] UpTree.leaf) 0xa76b [0xa76a] UpTree.leaf))) 0xa76d
  [0xa76c] (UpTree.node (UpTree.node (UpTree.node (UpTree.node UpTree.leaf 0xa76f [0xa76e]
  UpTree.leaf) 0xa77a [0xa779] UpTree.leaf) 0xa77c [0xa77b] (UpTree.node (UpTree.node UpTree.leaf
  0xa77f [0xa77e] UpTree.leaf) 0xa781 [0xa780] UpTree.leaf)) 0xa783 [0xa782] (UpTree.node
  (UpTree.node (UpTree.node UpTree.leaf 0xa785 [0xa784] UpTree.leaf) 0xa787 [0xa786] UpTree.leaf)
  0xa78c [0xa78b] (UpTree.node (UpTree.node UpTree.leaf 0xa791 [0xa790] UpTree.leaf) 0xa793
  [0xa792] UpTree.leaf)))) 0xa794 [0xa7c4] (UpTree.node (UpTree.node (UpTree.node (UpTree.node
  (UpTree.node UpTree.leaf 0xa797 [0xa796] UpTree.leaf) 0xa799 [0xa798] UpTree.leaf) 0xa79b
  [0xa79a] (UpTree.node (UpTree.node UpTree.leaf 0xa79d [0xa79c] UpTree.leaf) 0xa79f [0xa79e]
  UpTree.leaf)) 0xa7a1 [0xa7a0] (UpTree.node (UpTree.node (UpTree.node UpTree.leaf 0xa7a3
  [0xa7a2] UpTree.leaf) 0xa7a5 [0xa7a4] UpTree.leaf) 0xa7a7 [0xa7a6] (UpTree.node (UpTree.node
  UpTree.leaf 0xa7a9 [0xa7a8] UpTree.leaf) 0xa7b5 [0xa7b4] UpTree.leaf))) 0xa7b7 [0xa7b6]
  (UpTree.node (UpTree.node (UpTree.node (UpTree.node UpTree.leaf 0xa7b9 [0xa7b8] UpTree.leaf)
  0xa7bb [0xa7ba] UpTree.leaf) 0xa7bd [0xa7bc] (UpTree.node (UpTree.node UpTree.leaf 0xa7bf
  [0xa7be] UpTree.leaf) 0xa7c1 [0xa7c0] UpTree.leaf)) 0xa7c3 [0xa7c2] (UpTree.node (UpTree.node
  (UpTree.node UpTree.leaf 0xa7c8 [0xa7c7] UpTree.leaf) 0xa7ca [0xa7c9] UpTree.leaf) 0xa7d1
  [0xa7d0] (UpTree.node UpTree.leaf 0xa7d7 [0xa7d6] UpTree.leaf))))))

def upperTreeSub13 : UpTree :=
  (UpTree.node (UpTree.node (UpTree.node (UpTree.node (UpTree.node (UpTree.node (UpTree.node
  UpTree.leaf 0xa7f6 [0xa7f5] UpTree.leaf) 0xab53 [0xa7b3] UpTree.leaf) 0xab70 [0x13a0]
  (UpTree.node (UpTree.node UpTree.leaf 0xab71 [0x13a1] UpTree.leaf) 0xab72 [0x13a2]
  UpTree.leaf)) 0xab73 [0x13a3] (UpTree.node (UpTree.node (UpTree.node UpTree.leaf 0xab74
  [0x13a4] UpTree.leaf) 0xab75 [0x13a5] UpTree.leaf) 0xab76 [0x13a6] (UpTree.node (UpTree.node
  UpTree.leaf 0xab77 [0x13a7] UpTree.leaf) 0xab78 [0x13a8] UpTree.leaf))) 0xab79 [0x13a9]
  (UpTree.node (UpTree.node (UpTree.node (UpTree.node UpTree.leaf 0xab7a [0x13aa] UpTree.leaf)
  0xab7b [0x13ab] UpTree.leaf) 0xab7c [0x13ac] (UpTree.node (UpTree.node UpTree.leaf 0xab7d
  [0x13ad] UpTree.leaf) 0xab7e [0x13ae] UpTree.leaf)) 0xab7f [0x13af] (UpTree.node (UpTree.node
  (UpTree.node UpTree.leaf 0xab80 [0x13b0] UpTree.leaf) 0xab81 [0x13b1] UpTree.leaf) 0xab82
  [0x13b2] (UpTree.node (UpTree.node UpTree.leaf 0xab83 [0x13b3] UpTree.leaf) 0xab84 [0x13b4]
  UpTree.leaf)))) 0xab85 [0x13b5] (UpTree.node (UpTree.node (UpTree.node (UpTree.node
  (UpTree.node UpTree.leaf 0xab86 [0x13b6] UpTree.leaf) 0xab87 [0x13b7] UpTree.leaf) 0xab88
  [0x13b8] (UpTree.node (UpTree.node UpTree.leaf 0xab89 [0x13b9] UpTree.leaf) 0xab8a [0x13ba]
  UpTree.leaf)) 0xab8b [0x13bb] (UpTree.node (UpTree.node (UpTree.node UpTree.leaf 0xab8c
  [0x13bc] UpTree.leaf) 0xab8d [0x13bd] UpTree.leaf) 0xab8e [0x13be] (UpTree.node (UpTree.node
  UpTree.leaf 0xab8f [0x13bf] UpTree.leaf) 0xab90 [0x13c0] UpTree.leaf))) 0xab91 [0x13c1]
  (UpTree.node (UpTree.node (UpTree.node (UpTree.node UpTree.leaf 0xab92 [0x13c2] UpTree.leaf)
  0xab93 [0x13c3] UpTree.leaf) 0xab94 [0x13c4] (UpTree.node (UpTree.node UpTree.leaf 0xab95
  [0x13c5] UpTree.leaf) 0xab96 [0x13c6] UpTree.leaf)) 0xab97 [0x13c7] (UpTree.node (UpTree.node
  (UpTree.node UpTree.leaf 0xab98 [0x13c8] UpTree.leaf) 0xab99 [0x13c9] UpTree.leaf) 0xab9a
  [0x13ca] (UpTree.node (UpTree.node UpTree.leaf 0xab9b [0x13cb] UpTree.leaf) 0xab9c [0x13cc]
  UpTree.leaf))))) 0xab9d [0x13cd] (UpTree.node (UpTree.node (UpTree.node (UpTree.node
  (UpTree.node (UpTree.node UpTree.leaf 0xab9e [0x13ce] UpTree.leaf) 0xab9f [0x13cf] UpTree.leaf)
  0xaba0 [0x13d0] (UpTree.node (UpTree.node UpTree.leaf 0xaba1 [0x13d1] UpTree.leaf) 0xaba2
  [0x13d2] UpTree.leaf)) 0xaba3 [0x13d3] (UpTree.node (UpTree.node (UpTree.node UpTree.leaf
  0xaba4 [0x13d4] UpTree.leaf) 0xaba5 [0x13d5] UpTree.leaf) 0xaba6 [0x13d6] (UpTree.node
  (UpTree.node UpTree.leaf 0xaba7 [0x13d7] UpTree.leaf) 0xaba8 [0x13d8] UpTree.leaf))) 0xaba9
  [0x13d9] (UpTree.node (UpTree.node (UpTree.node (UpTree.node UpTree.leaf 0xabaa [0x13da]
  UpTree.leaf) 0xabab [0x13db] UpTree.leaf) 0xabac [0x13dc] (UpTree.node (UpTree.node UpTree.leaf
  0xabad [0x13dd] UpTree.leaf) 0xabae [0x13de] UpTree.leaf)) 0xabaf [0x13df] (UpTree.node
  (UpTree.node (UpTree.node UpTree.leaf 0xabb0 [0x13e0] UpTree.leaf) 0xabb1 [0x13e1] UpTree.leaf)
  0xabb2 [0x13e2] (UpTree.node (UpTree.node UpTree.leaf 0xabb3 [0x13e3] UpTree.leaf) 0xabb4
  [0x13e4] UpTree.leaf)))) 0xabb5 [0x13e5] (UpTree.node (UpTree.node (UpTree.node (UpTree.node
  (UpTree.node UpTree.leaf 0xabb6 [0x13e6] UpTree.leaf) 0xabb7 [0x13e7] UpTree.leaf) 0xabb8
  [0x13e8] (UpTree.node (UpTree.node UpTree.leaf 0xabb9 [0x13e9] UpTree.leaf) 0xabba [0x13ea]
  UpTree.leaf)) 0xabbb [0x13eb] (UpTree.node (UpTree.node (UpTree.node UpTree.leaf 0xabbc
  [0x13ec] UpTree.leaf) 0xabbd [0x13ed] UpTree.leaf) 0xabbe [0x13ee] (UpTree.node (UpTree.node
  UpTree.leaf 0xabbf [0x13ef] UpTree.leaf) 0xfb00 [0x46, 0x46] UpTree.leaf))) 0xfb01 [0x46, 0x49]
  (UpTree.node (UpTree.node (UpTree.node (UpTree.node UpTree.leaf 0xfb02 [0x46, 0x4c]
  UpTree.leaf) 0xfb03 [0x46, 0x46, 0x49] UpTree.leaf) 0xfb04 [0x46, 0x46, 0x4c] (UpTree.node
  (UpTree.node UpTree.leaf 0xfb05 [0x53, 0x54] UpTree.leaf) 0xfb06 [0x53, 0x54] UpTree.leaf))
  0xfb13 [0x544, 0x546] (UpTree.node (UpTree.node (UpTree.node UpTree.leaf 0xfb14 [0x544, 0x535]
  UpTree.leaf) 0xfb15 [0x544, 0x53b] UpTree.leaf) 0xfb16 [0x54e, 0x546] (UpTree.node (UpTree.node
  UpTree.leaf 0xfb17 [0x544, 0x53d] UpTree.leaf) 0xff41 [0xff21] UpTree.leaf))))))

def upperTreeSub14 : UpTree :=
  (UpTree.node (UpTree.node (UpTree.node (UpTree.node (UpTree.node (UpTree.node (UpTree.node
  UpTree.leaf 0xff43 [0xff23] UpTree.leaf) 0xff44 [0xff24] UpTree.leaf) 0xff45 [0xff25]
  (UpTree.node (UpTree.node UpTree.leaf 0xff46 [0xff26] UpTree.leaf) 0xff47 [0xff27]
  UpTree.leaf)) 0xff48 [0xff28] (UpTree.node (UpTree.node (UpTree.node UpTree.leaf 0xff49
  [0xff29] UpTree.leaf) 0xff4a [0xff2a] UpTree.leaf) 0xff4b [0xff2b] (UpTree.node (UpTree.node
  UpTree.leaf 0xff4c [0xff2c] UpTree.leaf) 0xff4d [0xff2d] UpTree.leaf))) 0xff4e [0xff2e]
  (UpTree.node (UpTree.node (UpTree.node (UpTree.node UpTree.leaf 0xff4f [0xff2f] UpTree.leaf)
  0xff50 [0xff30] UpTree.leaf) 0xff51 [0xff31] (UpTree.node (UpTree.node UpTree.leaf 0xff52
  [0xff32] UpTree.leaf) 0xff53 [0xff33] UpTree.leaf)) 0xff54 [0xff34] (UpTree.node (UpTree.node
  (UpTree.node UpTree.leaf 0xff55 [0xff35] UpTree.leaf) 0xff56 [0xff36] UpTree.leaf) 0xff57
  [0xff37] (UpTree.node (UpTree.node UpTree.leaf 0xff58 [0xff38] UpTree.leaf) 0xff59 [0xff39]
  UpTree.leaf)))) 0xff5a [0xff3a] (UpTree.node (UpTree.node (UpTree.node (UpTree.node
  (UpTree.node UpTree.leaf 0x10428 [0x10400] UpTree.leaf) 0x10429 [0x10401] UpTree.leaf) 0x1042a
  [0x10402] (UpTree.node (UpTree.node UpTree.leaf 0x1042b [0x10403] UpTree.leaf) 0x1042c
  [0x10404] UpTree.leaf)) 0x1042d [0x10405] (UpTree.node (UpTree.node (UpTree.node UpTree.leaf
  0x1042e [0x10406] UpTree.leaf) 0x1042f [0x10407] UpTree.leaf) 0x10430 [0x10408] (UpTree.node
  (UpTree.node UpTree.leaf 0x10431 [0x10409] UpTree.leaf) 0x10432 [0x1040a] UpTree.leaf)))
  0x10433 [0x1040b] (UpTree.node (UpTree.node (UpTree.node (UpTree.node UpTree.leaf 0x10434
  [0x1040c] UpTree.leaf) 0x10435 [0x1040d] UpTree.leaf) 0x10436 [0x1040e] (UpTree.node
  (UpTree.node UpTree.leaf 0x10437 [0x1040f] UpTree.leaf) 0x10438 [0x10410] UpTree.leaf)) 0x10439
  [0x10411] (UpTree.node (UpTree.node (UpTree.node UpTree.leaf 0x1043a [0x10412] UpTree.leaf)
  0x1043b [0x10413] UpTree.leaf) 0x1043c [0x10414] (UpTree.node (UpTree.node UpTree.leaf 0x1043d
  [0x10415] UpTree.leaf) 0x1043e [0x10416] UpTree.leaf))))) 0x1043f [0x10417] (UpTree.node
  (UpTree.node (UpTree.node (UpTree.node (UpTree.node (UpTree.node UpTree.leaf 0x10440 [0x10418]
  UpTree.leaf) 0x10441 [0x10419] UpTree.leaf) 0x10442 [0x1041a] (UpTree.node (UpTree.node
  UpTree.leaf 0x10443 [0x1041b] UpTree.leaf) 0x10444 [0x1041c] UpTree.leaf)) 0x10445 [0x1041d]
  (UpTree.node (UpTree.node (UpTree.node UpTree.leaf 0x10446 [0x1041e] UpTree.leaf) 0x10447
  [0x1041f] UpTree.leaf) 0x10448 [0x10420] (UpTree.node (UpTree.node UpTree.leaf 0x10449
  [0x10421] UpTree.leaf) 0x1044a [0x10422] UpTree.leaf))) 0x1044b [0x10423] (UpTree.node
  (UpTree.node (UpTree.node (UpTree.node UpTree.leaf 0x1044c [0x10424] UpTree.leaf) 0x1044d
  [0x10425] UpTree.leaf) 0x1044e [0x10426] (UpTree.node (UpTree.node UpTree.leaf 0x1044f
  [0x10427] UpTree.leaf) 0x104d8 [0x104b0] UpTree.leaf)) 0x104d9 [0x104b1] (UpTree.node
  (UpTree.node (UpTree.node UpTree.leaf 0x104da [0x104b2] UpTree.leaf) 0x104db [0x104b3]
  UpTree.leaf) 0x104dc [0x104b4] (UpTree.node (UpTree.node UpTree.leaf 0x104dd [0x104b5]
  UpTree.leaf) 0x104de [0x104b6] UpTree.leaf)))) 0x104df [0x104b7] (UpTree.node (UpTree.node
  (UpTree.node (UpTree.node (UpTree.node UpTree.leaf 0x104e0 [0x104b8] UpTree.leaf) 0x104e1
  [0x104b9] UpTree.leaf) 0x104e2 [0x104ba] (UpTree.node (UpTree.node UpTree.leaf 0x104e3
  [0x104bb] UpTree.leaf) 0x104e4 [0x104bc] UpTree.leaf)) 0x104e5 [0x104bd] (UpTree.node
  (UpTree.node (UpTree.node UpTree.leaf 0x104e6 [0x104be] UpTree.leaf) 0x104e7 [0x104bf]
  UpTree.leaf) 0x104e8 [0x104c0] (UpTree.node (UpTree.node UpTree.leaf 0x104e9 [0x104c1]
  UpTree.leaf) 0x104ea [0x104c2] UpTree.leaf))) 0x104eb [0x104c3] (UpTree.node (UpTree.node
  (UpTree.node (UpTree.node UpTree.leaf 0x104ec [0x104c4] UpTree.leaf) 0x104ed [0x104c5]
  UpTree.leaf) 0x104ee [0x104c6] (UpTree.node (UpTree.node UpTree.leaf 0x104ef [0x104c7]
  UpTree.leaf) 0x104f0 [0x104c8] UpTree.leaf)) 0x104f1 [0x104c9] (UpTree.node (UpTree.node
  (UpTree.node UpTree.leaf 0x104f2 [0x104ca] UpTree.leaf) 0x104f3 [0x104cb] UpTree.leaf) 0x104f4
  [0x104cc] (UpTree.node UpTree.leaf 0x104f5 [0x104cd] UpTree.leaf))))))

def upperTreeSub15 : UpTree :=
  (UpTree.node (UpTree.node (UpTree.node (UpTree.node (UpTree.node (UpTree.node (UpTree.node
  UpTree.leaf 0x104f7 [0x104cf] UpTree.leaf) 0x104f8 [0x104d0] UpTree.leaf) 0x104f9 [0x104d1]
  (UpTree.node (UpTree.node UpTree.leaf 0x104fa [0x104d2] UpTree.leaf) 0x104fb [0x104d3]
  UpTree.leaf)) 0x10597 [0x10570] (UpTree.node (UpTree.node (UpTree.node UpTree.leaf 0x10598
  [0x10571] UpTree.leaf) 0x10599 [0x10572] UpTree.leaf) 0x1059a [0x10573] (UpTree.node
  (UpTree.node UpTree.leaf 0x1059b [0x10574] UpTree.leaf) 0x1059c [0x10575] UpTree.leaf)))
  0x1059d [0x10576] (UpTree.node (UpTree.node (UpTree.node (UpTree.node UpTree.leaf 0x1059e
  [0x10577] UpTree.leaf) 0x1059f [0x10578] UpTree.leaf) 0x105a0 [0x10579] (UpTree.node
  (UpTree.node UpTree.leaf 0x105a1 [0x1057a] UpTree.leaf) 0x105a3 [0x1057c] UpTree.leaf)) 0x105a4
  [0x1057d] (UpTree.node (UpTree.node (UpTree.node UpTree.leaf 0x105a5 [0x1057e] UpTree.leaf)
  0x105a6 [0x1057f] UpTree.leaf) 0x105a7 [0x10580] (UpTree.node (UpTree.node UpTree.leaf 0x105a8
  [0x10581] UpTree.leaf) 0x105a9 [0x10582] UpTree.leaf)))) 0x105aa [0x10583] (UpTree.node
  (UpTree.node (UpTree.node (UpTree.node (UpTree.node UpTree.leaf 0x105ab [0x10584] UpTree.leaf)
  0x105ac [0x10585] UpTree.leaf) 0x105ad [0x10586] (UpTree.node (UpTree.node UpTree.leaf 0x105ae
  [0x10587] UpTree.leaf) 0x105af [0x10588] UpTree.leaf)) 0x105b0 [0x10589] (UpTree.node
  (UpTree.node (UpTree.node UpTree.leaf 0x105b1 [0x1058a] UpTree.leaf) 0x105b3 [0x1058c]
  UpTree.leaf) 0x105b4 [0x1058d] (UpTree.node (UpTree.node UpTree.leaf 0x105b5 [0x1058e]
  UpTree.leaf) 0x105b6 [0x1058f] UpTree.leaf))) 0x105b7 [0x10590] (UpTree.node (UpTree.node
  (UpTree.node (UpTree.node UpTree.leaf 0x105b8 [0x10591] UpTree.leaf) 0x105b9 [0x10592]
  UpTree.leaf) 0x105bb [0x10594] (UpTree.node (UpTree.node UpTree.leaf 0x105bc [0x10595]
  UpTree.leaf) 0x10cc0 [0x10c80] UpTree.leaf)) 0x10cc1 [0x10c81] (UpTree.node (UpTree.node
  (UpTree.node UpTree.leaf 0x10cc2 [0x10c82] UpTree.leaf) 0x10cc3 [0x10c83] UpTree.leaf) 0x10cc4
  [0x10c84] (UpTree.node (UpTree.node UpTree.leaf 0x10cc5 [0x10c85] UpTree.leaf) 0x10cc6
  [0x10c86] UpTree.leaf))))) 0x10cc7 [0x10c87] (UpTree.node (UpTree.node (UpTree.node
  (UpTree.node (UpTree.node (UpTree.node UpTree.leaf 0x10cc8 [0x10c88] UpTree.leaf) 0x10cc9
  [0x10c89] UpTree.leaf) 0x10cca [0x10c8a] (UpTree.node (UpTree.node UpTree.leaf 0x10ccb
  [0x10c8b] UpTree.leaf) 0x10ccc [0x10c8c] UpTree.leaf)) 0x10ccd [0x10c8d] (UpTree.node
  (UpTree.node (UpTree.node UpTree.leaf 0x10cce [0x10c8e] UpTree.leaf) 0x10ccf [0x10c8f]
  UpTree.leaf) 0x10cd0 [0x10c90] (UpTree.node (UpTree.node UpTree.leaf 0x10cd1 [0x10c91]
  UpTree.leaf) 0x10cd2 [0x10c92] UpTree.leaf))) 0x10cd3 [0x10c93] (UpTree.node (UpTree.node
  (UpTree.node (UpTree.node UpTree.leaf 0x10cd4 [0x10c94] UpTree.leaf) 0x10cd5 [0x10c95]
  UpTree.leaf) 0x10cd6 [0x10c96] (UpTree.node (UpTree.node UpTree.leaf 0x10cd7 [0x10c97]
  UpTree.leaf) 0x10cd8 [0x10c98] UpTree.leaf)) 0x10cd9 [0x10c99] (UpTree.node (UpTree.node
  (UpTree.node UpTree.leaf 0x10cda [0x10c9a] UpTree.leaf) 0x10cdb [0x10c9b] UpTree.leaf) 0x10cdc
  [0x10c9c] (UpTree.node (UpTree.node UpTree.leaf 0x10cdd [0x10c9d] UpTree.leaf) 0x10cde
  [0x10c9e] UpTree.leaf)))) 0x10cdf [0x10c9f] (UpTree.node (UpTree.node (UpTree.node (UpTree.node
  (UpTree.node UpTree.leaf 0x10ce0 [0x10ca0] UpTree.leaf) 0x10ce1 [0x10ca1] UpTree.leaf) 0x10ce2
  [0x10ca2] (UpTree.node (UpTree.node UpTree.leaf 0x10ce3 [0x10ca3] UpTree.leaf) 0x10ce4
  [0x10ca4] UpTree.leaf)) 0x10ce5 [0x10ca5] (UpTree.node (UpTree.node (UpTree.node UpTree.leaf
  0x10ce6 [0x10ca6] UpTree.leaf) 0x10ce7 [0x10ca7] UpTree.leaf) 0x10ce8 [0x10ca8] (UpTree.node
  (UpTree.node UpTree.leaf 0x10ce9 [0x10ca9] UpTree.leaf) 0x10cea [0x10caa] UpTree.leaf)))
  0x10ceb [0x10cab] (UpTree.node (UpTree.node (UpTree.node (UpTree.node UpTree.leaf 0x10cec
  [0x10cac] UpTree.leaf) 0x10ced [0x10cad] UpTree.leaf) 0x10cee [0x10cae] (UpTree.node
  (UpTree.node UpTree.leaf 0x10cef [0x10caf] UpTree.leaf) 0x10cf0 [0x10cb0] UpTree.leaf)) 0x10cf1
  [0x10cb1] (UpTree.node (UpTree.node (UpTree.node UpTree.leaf 0x10cf2 [0x10cb2] UpTree.leaf)
  0x118c0 [0x118a0] UpTree.leaf) 0x118c1 [0x118a1] (UpTree.node UpTree.leaf 0x118c2 [0x118a2]
  UpTree.leaf))))))

def upperTreeSub16 : UpTree :=
  (UpTree.node (UpTree.node (UpTree.node (UpTree.node (UpTree.node (UpTree.node (UpTree.node
  UpTree.leaf 0x118c4 [0x118a4] UpTree.leaf) 0x118c5 [0x118a5] UpTree.leaf) 0x118c6 [0x118a6]
  (UpTree.node (UpTree.node UpTree.leaf 0x118c7 [0x118a7] UpTree.leaf) 0x118c8 [0x118a8]
  UpTree.leaf)) 0x118c9 [0x118a9] (UpTree.node (UpTree.node (UpTree.node UpTree.leaf 0x118ca
  [0x118aa] UpTree.leaf) 0x118cb [0x118ab] UpTree.leaf) 0x118cc [0x118ac] (UpTree.node
  (UpTree.node UpTree.leaf 0x118cd [0x118ad] UpTree.leaf) 0x118ce [0x118ae] UpTree.leaf)))
  0x118cf [0x118af] (UpTree.node (UpTree.node (UpTree.node (UpTree.node UpTree.leaf 0x118d0
  [0x118b0] UpTree.leaf) 0x118d1 [0x118b1] UpTree.leaf) 0x118d2 [0x118b2] (UpTree.node
  (UpTree.node UpTree.leaf 0x118d3 [0x118b3] UpTree.leaf) 0x118d4 [0x118b4] UpTree.leaf)) 0x118d5
  [0x118b5] (UpTree.node (UpTree.node (UpTree.node UpTree.leaf 0x118d6 [0x118b6] UpTree.leaf)
  0x118d7 [0x118b7] UpTree.leaf) 0x118d8 [0x118b8] (UpTree.node (UpTree.node UpTree.leaf 0x118d9
  [0x118b9] UpTree.leaf) 0x118da [0x118ba] UpTree.leaf)))) 0x118db [0x118bb] (UpTree.node
  (UpTree.node (UpTree.node (UpTree.node (UpTree.node UpTree.leaf 0x118dc [0x118bc] UpTree.leaf)
  0x118dd [0x118bd] UpTree.leaf) 0x118de [0x118be] (UpTree.node (UpTree.node UpTree.leaf 0x118df
  [0x118bf] UpTree.leaf) 0x16e60 [0x16e40] UpTree.leaf)) 0x16e61 [0x16e41] (UpTree.node
  (UpTree.node (UpTree.node UpTree.leaf 0x16e62 [0x16e42] UpTree.leaf) 0x16e63 [0x16e43]
  UpTree.leaf) 0x16e64 [0x16e44] (UpTree.node (UpTree.node UpTree.leaf 0x16e65 [0x16e45]
  UpTree.leaf) 0x16e66 [0x16e46] UpTree.leaf))) 0x16e67 [0x16e47] (UpTree.node (UpTree.node
  (UpTree.node (UpTree.node UpTree.leaf 0x16e68 [0x16e48] UpTree.leaf) 0x16e69 [0x16e49]
  UpTree.leaf) 0x16e6a [0x16e4a] (UpTree.node (UpTree.node UpTree.leaf 0x16e6b [0x16e4b]
  UpTree.leaf) 0x16e6c [0x16e4c] UpTree.leaf)) 0x16e6d [0x16e4d] (UpTree.node (UpTree.node
  (UpTree.node UpTree.leaf 0x16e6e [0x16e4e] UpTree.leaf) 0x16e6f [0x16e4f] UpTree.leaf) 0x16e70
  [0x16e50] (UpTree.node (UpTree.node UpTree.leaf 0x16e71 [0x16e51] UpTree.leaf) 0x16e72
  [0x16e52] UpTree.leaf))))) 0x16e73 [0x16e53] (UpTree.node (UpTree.node (UpTree.node
  (UpTree.node (UpTree.node (UpTree.node UpTree.leaf 0x16e74 [0x16e54] UpTree.leaf) 0x16e75
  [0x16e55] UpTree.leaf) 0x16e76 [0x16e56] (UpTree.node (UpTree.node UpTree.leaf 0x16e77
  [0x16e57] UpTree.leaf) 0x16e78 [0x16e58] UpTree.leaf)) 0x16e79 [0x16e59] (UpTree.node
  (UpTree.node (UpTree.node UpTree.leaf 0x16e7a [0x16e5a] UpTree.leaf) 0x16e7b [0x16e5b]
  UpTree.leaf) 0x16e7c [0x16e5c] (UpTree.node (UpTree.node UpTree.leaf 0x16e7d [0x16e5d]
  UpTree.leaf) 0x16e7e [0x16e5e] UpTree.leaf))) 0x16e7f [0x16e5f] (UpTree.node (UpTree.node
  (UpTree.node (UpTree.node UpTree.leaf 0x1e922 [0x1e900] UpTree.leaf) 0x1e923 [0x1e901]
  UpTree.leaf) 0x1e924 [0x1e902] (UpTree.node (UpTree.node UpTree.leaf 0x1e925 [0x1e903]
  UpTree.leaf) 0x1e926 [0x1e904] UpTree.leaf)) 0x1e927 [0x1e905] (UpTree.node (UpTree.node
  (UpTree.node UpTree.leaf 0x1e928 [0x1e906] UpTree.leaf) 0x1e929 [0x1e907] UpTree.leaf) 0x1e92a
  [0x1e908] (UpTree.node (UpTree.node UpTree.leaf 0x1e92b [0x1e909] UpTree.leaf) 0x1e92c
  [0x1e90a] UpTree.leaf)))) 0x1e92d [0x1e90b] (UpTree.node (UpTree.node (UpTree.node (UpTree.node
  (UpTree.node UpTree.leaf 0x1e92e [0x1e90c] UpTree.leaf) 0x1e92f [0x1e90d] UpTree.leaf) 0x1e930
  [0x1e90e] (UpTree.node (UpTree.node UpTree.leaf 0x1e931 [0x1e90f] UpTree.leaf) 0x1e932
  [0x1e910] UpTree.leaf)) 0x1e933 [0x1e911] (UpTree.node (UpTree.node (UpTree.node UpTree.leaf
  0x1e934 [0x1e912] UpTree.leaf) 0x1e935 [0x1e913] UpTree.leaf) 0x1e936 [0x1e914] (UpTree.node
  (UpTree.node UpTree.leaf 0x1e937 [0x1e915] UpTree.leaf) 0x1e938 [0x1e916] UpTree.leaf)))
  0x1e939 [0x1e917] (UpTree.node (UpTree.node (UpTree.node (UpTree.node UpTree.leaf 0x1e93a
  [0x1e918] UpTree.leaf) 0x1e93b [0x1e919] UpTree.leaf) 0x1e93c [0x1e91a] (UpTree.node
  (UpTree.node UpTree.leaf 0x1e93d [0x1e91b] UpTree.leaf) 0x1e93e [0x1e91c] UpTree.leaf)) 0x1e93f
  [0x1e91d] (UpTree.node (UpTree.node (UpTree.node UpTree.leaf 0x1e940 [0x1e91e] UpTree.leaf)
  0x1e941 [0x1e91f] UpTree.leaf) 0x1e942 [0x1e920] (UpTree.node UpTree.leaf 0x1e943 [0x1e921]
  UpTree.leaf))))))

def upperTree : UpTree :=
  (UpTree.node (UpTree.node (UpTree.node (UpTree.node upperTreeSub1 0x149 [0x2bc, 0x4e]
  upperTreeSub2) 0x21d [0x21c] (UpTree.node upperTreeSub3 0x3cb [0x3ab] upperTreeSub4)) 0x48f
  [0x48e] (UpTree.node (UpTree.node upperTreeSub5 0x570 [0x540] upperTreeSub6) 0x1e0f [0x1e0e]
  (UpTree.node upperTreeSub7 0x1ecb [0x1eca] upperTreeSub8))) 0x1f82 [0x1f0a, 0x399] (UpTree.node
  (UpTree.node (UpTree.node upperTreeSub9 0x217e [0x216e] upperTreeSub10) 0x2c95 [0x2c94]
  (UpTree.node upperTreeSub11 0xa65b [0xa65a] upperTreeSub12)) 0xa7d9 [0xa7d8] (UpTree.node
  (UpTree.node upperTreeSub13 0xff42 [0xff22] upperTreeSub14) 0x104f6 [0x104ce] (UpTree.node
  upperTreeSub15 0x118c3 [0x118a3] upperTreeSub16))))

/-- Python `str.upper` on one code point: the uppercase image of `c`
from the table, and `[c]` for every code point the mapping fixes. -/
def upperMap (c : Nat) : List Nat := (upperTree.lookup c).getD [c]

/-- Python `str.upper`: concatenate the uppercase images of all code
points (the mapping of one code point can have length up to 3). -/
def upper (s : PyStr) : PyStr := s.flatMap upperMap

/-- The newline appended by Python `print`. -/
def newline : PyStr := [10]

/-- Observable outcome of one CLI invocation: what was written to
standard output and standard error, and the exit code. -/
structure ExecResult where
  stdout : PyStr
  stderr : PyStr
  exitCode : Nat
deriving DecidableEq, Repr

/-! ## src/foobar.py -/

/-- `foobar` from src/foobar.py: `return f"foo:{value}:bar"`, with
default argument `value = ""`. -/
def foobar (value : PyStr := strLit "") : PyStr :=
  strLit "foo:" ++ value ++ strLit ":bar"

/-- `foobaz` from src/foobar.py: `return f"foo:{value}:baz"`, with
default argument `value = ""`. -/
def foobaz (value : PyStr := strLit "") : PyStr :=
  strLit "foo:" ++ value ++ strLit ":baz"

/-- The `__main__` block of src/foobar.py:
`arg = sys.argv[1] if len(sys.argv) > 1 else ""` then `print(foobar(arg))`.
`argv` is the full `sys.argv`, program name included. -/
def foobar_main (argv : List PyStr) : ExecResult :=
  let arg := (argv[1]?).getD (strLit "")
  { stdout := foobar arg ++ newline, stderr := strLit "", exitCode := 0 }

/-! ## src/helloworld.py -/

/-- `format_greeting` from src/helloworld.py:
`greeting = f"Hello, {name}"; return greeting.upper() if shout else greeting`,
with defaults `name = "User"` and `shout = False`. -/
def format_greeting (name : PyStr := strLit "User") (shout : Bool := false) :
    PyStr :=
  let greeting := strLit "Hello, " ++ name
  if shout then upper greeting else greeting

/-- The parsed argument namespace produced by `parse_args`. -/
structure GreetArgs where
  name : PyStr
  shout : Bool
deriving DecidableEq, Repr

/-- Outcome of `argparse` argument parsing: a namespace, an immediate
help exit, or an argument error (usage on stderr, exit code 2). -/
inductive ParseOutcome where
  | ok (args : GreetArgs)
  | helpExit
  | errorExit
deriving DecidableEq, Repr

/-- ASCII digit code point, for the negative-number test below. -/
def isDigitCp (n : Nat) : Bool := 48 ≤ n ∧ n ≤ 57

/-- Token matching the regular expression `-\d+` or `-\d*\.\d+` that
`argparse` uses to recognize negative-number-like arguments; since the
parser has no numeric-looking option strings, such tokens are treated
as positionals. -/
def negNumberTok (t : PyStr) : Bool :=
  match t with
  | 45 :: rest =>
      (!rest.isEmpty && rest.all isDigitCp) ||
      (match rest.dropWhile isDigitCp with
       | 46 :: frac => !frac.isEmpty && frac.all isDigitCp
       | _ => false)
  | _ => false

/-- The long-option spellings `argparse` accepts for `--shout`: any
unambiguous abbreviation, that is, any prefix of length at least 3. -/
def longShoutToks : List PyStr :=
  [strLit "--s", strLit "--sh", strLit "--sho", strLit "--shou",
   strLit "--shout"]

/-- The long-option spellings `argparse` accepts for `--help`. -/
def longHelpToks : List PyStr :=
  [strLit "--h", strLit "--he", strLit "--hel", strLit "--help"]

/-- Heads that resolve to at least one long option when a token of the
form `head=value` is parsed; both options of this parser take no
argument, so `argparse` raises an immediate error for all of them
(ignored explicit argument, or an ambiguous option for `--=value`). -/
def eqHeads : List PyStr :=
  [strLit "--", strLit "--s", strLit "--sh", strLit "--sho",
   strLit "--shou", strLit "--shout",
   strLit "--h", strLit "--he", strLit "--hel", strLit "--help"]

/-- How `argparse` classifies one token of the argument vector (the
`--` separator is handled by the scanner before this classifier). -/
inductive TokClass where
  | positional
  | shoutFlag
  | helpFlag
  | unknownOpt
  | badExplicit
deriving DecidableEq, Repr

/-- Classify one token the way `argparse` does for this parser:
long tokens are matched against the (abbreviated) long options, then
against the `head=value` immediate-error forms, then rescued as
positionals when they contain a space, and otherwise deferred as
unrecognized; single-dash tokens whose first character is a known
short option are walked as a cluster of short flags (an unknown
character in the cluster is an immediate error), and other single-dash
tokens are positionals when negative-number-like or space-containing
and deferred unrecognized options otherwise. -/
def tokClass (t : PyStr) : TokClass :=
  match t with
  | 45 :: 45 :: _ :: _ =>
      if longShoutToks.contains t then .shoutFlag
      else if longHelpToks.contains t then .helpFlag
      else if t.contains 61 && eqHeads.contains (t.takeWhile (fun d => d != 61)) then
        .badExplicit
      else if t.contains 32 then .positional
      else .unknownOpt
  | 45 :: c :: rest =>
      if c = 115 ∨ c = 104 then
        if (c :: rest).all (fun d => decide (d = 115 ∨ d = 104)) then
          if (c :: rest).contains 104 then .helpFlag else .shoutFlag
        else .badExplicit
      else if negNumberTok t then .positional
      else if t.contains 32 then .positional
      else .unknownOpt
  | _ => .positional

/-- Scan the tokens after the `--` separator: all are positionals; the
first fills `name`, any further one is a deferred unrecognized
argument. -/
def scanAfter : List PyStr → Option PyStr → Bool → Bool → ParseOutcome
  | [], name, shout, pending =>
      if pending then .errorExit
      else .ok { name := name.getD (strLit "User"), shout := shout }
  | t :: rest, name, shout, pending =>
      match name with
      | none => scanAfter rest (some t) shout pending
      | some x => scanAfter rest (some x) shout true

/-- Scan the argument vector in order, as `argparse` consumes it: a
help option exits immediately with the help text; an explicit argument
to a zero-argument option is an immediate error; unrecognized options
and surplus positionals are recorded and reported as an error at the
end of the scan unless a help option is reached first. -/
def scanTokens : List PyStr → Option PyStr → Bool → Bool → ParseOutcome
  | [], name, shout, pending =>
      if pending then .errorExit
      else .ok { name := name.getD (strLit "User"), shout := shout }
  | t :: rest, name, shout, pending =>
      if t = strLit "--" then scanAfter rest name shout pending
      else
        match tokClass t with
        | .helpFlag => .helpExit
        | .shoutFlag => scanTokens rest name true pending
        | .badExplicit => .errorExit
        | .unknownOpt => scanTokens rest name shout true
        | .positional =>
            match name with
            | none => scanTokens rest (some t) shout pending
            | some x => scanTokens rest (some x) shout true

/-- `parse_args` from src/helloworld.py, modelling the documented
behaviour of `argparse` for a parser with one optional positional
`name` (default `"User"`), a store-true flag `-s`/`--shout`, and the
automatic `-h`/`--help`.  `argv` is `sys.argv[1:]`. -/
def parse_args (argv : List PyStr) : ParseOutcome :=
  scanTokens argv none false false

/-- The tokens of the argument vector before the first `--` separator:
the only ones the scanner classifies as options. -/
def beforeSep : List PyStr → List PyStr
  | [] => []
  | t :: rest => if t = strLit "--" then [] else t :: beforeSep rest

/-- A malformed option token: one the scanner rejects, either as a
deferred unrecognized option or as an immediate explicit-argument
error. -/
def isBadOption (t : PyStr) : Bool :=
  match tokClass t with
  | .unknownOpt => true
  | .badExplicit => true
  | _ => false

/-- The usage line `argparse` emits for src/helloworld.py. -/
def usageMsg : PyStr := strLit "usage: helloworld.py [-h] [-s] [name]"

/-- `main` of src/helloworld.py: parse the arguments and print the
greeting.  On help, `argparse` prints the help text to stdout and exits
0; on an argument error it prints the usage message to stderr and exits
2.  `argv` is `sys.argv[1:]`. -/
def helloworld_main (argv : List PyStr) : ExecResult :=
  match parse_args argv with
  | .ok args =>
      { stdout := format_greeting args.name args.shout ++ newline,
        stderr := strLit "", exitCode := 0 }
  | .helpExit =>
      { stdout := usageMsg ++ newline, stderr := strLit "", exitCode := 0 }
  | .errorExit =>
      { stdout := strLit "", stderr := usageMsg ++ newline, exitCode := 2 }

/-! ## Theorems -/

/-- A predicate checked on every node of a tree holds at every
successful lookup. -/
theorem lookup_allNodes (p : Nat → List Nat → Bool) :
    ∀ (t : UpTree), t.allNodes p = true →
      ∀ (c : Nat) (v : List Nat), t.lookup c = some v → p c v = true := by
  intro t
  induction t with
  | leaf => intro _ c v hl; simp [UpTree.lookup] at hl
  | node l k val r ihl ihr =>
      intro hall c v hl
      simp only [UpTree.allNodes, Bool.and_eq_true] at hall
      obtain ⟨⟨hL, hk⟩, hR⟩ := hall
      simp only [UpTree.lookup] at hl
      by_cases h1 : c < k
      · rw [if_pos h1] at hl
        exact ihl hL c v hl
      · rw [if_neg h1] at hl
        by_cases h2 : k < c
        · rw [if_pos h2] at hl
          exact ihr hR c v hl
        · rw [if_neg h2] at hl
          have hck : c = k := by omega
          obtain rfl : val = v := by injection hl
          rw [hck]
          exact hk

set_option maxRecDepth 40000 in
/-- The keys of the uppercase table form a strictly increasing
sequence in symmetric order: the tree is a valid search tree, so
`UpTree.lookup` finds exactly the stored mapping of a code point. -/
theorem upperTree_keys_sorted : ascending upperTree.keys = true := by
  decide

/-- Every code point in the image of the uppercase table is absent
from the table itself: uppercase images are fixed by `str.upper`. -/
theorem upperTree_outputs_fixed :
    upperTree.allNodes
      (fun _ v => v.all (fun o => (upperTree.lookup o).isNone)) = true := by
  decide

/-- Every code point of the uppercase image of any code point is fixed
by the uppercase mapping. -/
theorem upperMap_output_fixed (c : Nat) : ∀ o ∈ upperMap c, upperMap o = [o] := by
  intro o ho
  unfold upperMap at ho
  cases hl : upperTree.lookup c with
  | none =>
      rw [hl] at ho
      simp at ho
      subst ho
      unfold upperMap
      rw [hl]
      rfl
  | some v =>
      rw [hl] at ho
      simp at ho
      have hp := lookup_allNodes _ upperTree upperTree_outputs_fixed c v hl
      simp only [List.all_eq_true] at hp
      have hnone := hp o ho
      rw [Option.isNone_iff_eq_none] at hnone
      unfold upperMap
      rw [hnone]
      rfl

/-- `upper` on a cons. -/
theorem upper_cons (c : Nat) (cs : PyStr) :
    upper (c :: cs) = upperMap c ++ upper cs := by
  simp [upper]

/-- `upper` distributes over concatenation. -/
theorem upper_append (a b : PyStr) : upper (a ++ b) = upper a ++ upper b := by
  simp [upper]

/-- A string all of whose code points are fixed by the uppercase
mapping is fixed by `upper`. -/
theorem upper_fixed (l : PyStr) (h : ∀ o ∈ l, upperMap o = [o]) : upper l = l := by
  induction l with
  | nil => rfl
  | cons c cs ih =>
      rw [upper_cons, h c (List.mem_cons_self c cs),
        ih (fun o ho => h o (List.mem_cons_of_mem c ho))]
      rfl

/-- C1: for every string n and boolean s, format_greeting n s is the
uppercased form of "Hello, " ++ n when s is true and "Hello, " ++ n
itself when s is false. -/
theorem format_greeting_spec (n : PyStr) (s : Bool) :
    format_greeting n s =
      if s then upper (strLit "Hello, " ++ n) else strLit "Hello, " ++ n := by
  cases s <;> rfl

/-- C2: for every string v, foobar v is the concatenation
"foo:" ++ v ++ ":bar". -/
theorem foobar_spec (v : PyStr) :
    foobar v = strLit "foo:" ++ v ++ strLit ":bar" := rfl

/-- C3: for every string v, foobaz v is "foo:" ++ v ++ ":baz", and
foobar and foobaz share the common part "foo:" ++ v ++ ":" — they
differ only in the suffix token, "bar" versus "baz". -/
theorem foobaz_spec (v : PyStr) :
    foobaz v = strLit "foo:" ++ v ++ strLit ":baz" ∧
    foobar v = (strLit "foo:" ++ v ++ strLit ":") ++ strLit "bar" ∧
    foobaz v = (strLit "foo:" ++ v ++ strLit ":") ++ strLit "baz" := by
  refine ⟨rfl, ?_, ?_⟩ <;> simp only [foobar, foobaz, List.append_assoc] <;> rfl

/-- C4: foobar with its argument omitted uses the default empty string,
so it agrees with foobar "" and both equal "foo::bar". -/
theorem foobar_default :
    (foobar : PyStr) = foobar (strLit "") ∧
    foobar (strLit "") = strLit "foo::bar" :=
  ⟨rfl, by decide⟩

/-- C5: format_greeting with all arguments omitted yields "Hello, User"
(defaults name = "User", shout = false); the CLI argument defaults agree:
parsing an empty argument vector yields the same defaults, and running
the greeting CLI with no arguments prints "Hello, User". -/
theorem format_greeting_default :
    (format_greeting : PyStr) = strLit "Hello, User" ∧
    parse_args [] = .ok { name := strLit "User", shout := false } ∧
    helloworld_main [] =
      { stdout := strLit "Hello, User" ++ newline,
        stderr := strLit "", exitCode := 0 } :=
  ⟨rfl, by decide, by decide⟩

/-- C6: the uppercase transformation used by format_greeting is
idempotent: upper (upper x) = upper x for every string x. -/
theorem upper_idem (x : PyStr) : upper (upper x) = upper x := by
  induction x with
  | nil => rfl
  | cons c cs ih =>
      rw [upper_cons, upper_append, upper_fixed _ (upperMap_output_fixed c), ih]

/-- C7 counterexample: with arguments bob -s the greeting CLI does not
print "HELLO, BOB!" — format_greeting produces no exclamation mark. -/
theorem helloworld_bob_shout_no_bang :
    (helloworld_main [strLit "bob", strLit "-s"]).stdout ≠
      strLit "HELLO, BOB!" ++ newline := by
  decide

/-- C7 amended: with arguments bob -s the greeting CLI prints
"HELLO, BOB" followed by a newline to standard output and exits 0. -/
theorem helloworld_bob_shout :
    helloworld_main [strLit "bob", strLit "-s"] =
      { stdout := strLit "HELLO, BOB" ++ newline,
        stderr := strLit "", exitCode := 0 } := by
  decide

/-- C8: the wrapper CLI invoked with the single argument "x" prints
"foo:x:bar" followed by a newline and exits 0, whatever the program
name; and every invocation of the wrapper CLI exits 0. -/
theorem foobar_cli_spec :
    (∀ prog : PyStr, foobar_main [prog, strLit "x"] =
      { stdout := strLit "foo:x:bar" ++ newline,
        stderr := strLit "", exitCode := 0 }) ∧
    (∀ argv : List PyStr, (foobar_main argv).exitCode = 0) :=
  ⟨fun _ => rfl, fun _ => rfl⟩

/-- Once the scanner has passed the `--` separator with a pending
unrecognized argument, it ends in an argument error. -/
theorem scanAfter_pending :
    ∀ (l : List PyStr) (name : Option PyStr) (shout : Bool),
      scanAfter l name shout true = ParseOutcome.errorExit
  | [], _, _ => rfl
  | t :: rest, none, shout => scanAfter_pending rest (some t) shout
  | _ :: rest, some x, shout => scanAfter_pending rest (some x) shout

/-- A scan with a pending unrecognized argument that meets no help
token ends in an argument error. -/
theorem scanTokens_pending :
    ∀ (l : List PyStr) (name : Option PyStr) (shout : Bool),
      (∀ u ∈ l, tokClass u ≠ TokClass.helpFlag) →
      scanTokens l name shout true = ParseOutcome.errorExit := by
  intro l
  induction l with
  | nil => intro name shout _; rfl
  | cons t rest ih =>
      intro name shout h
      have h' : ∀ u ∈ rest, tokClass u ≠ TokClass.helpFlag :=
        fun u hu => h u (List.mem_cons_of_mem t hu)
      by_cases hsep : t = strLit "--"
      · simp only [scanTokens]
        rw [if_pos hsep]
        exact scanAfter_pending rest name shout
      · simp only [scanTokens]
        rw [if_neg hsep]
        have ht := h t (List.mem_cons_self t rest)
        cases hcls : tokClass t with
        | helpFlag => exact absurd hcls ht
        | shoutFlag => exact ih name true h'
        | badExplicit => rfl
        | unknownOpt => exact ih name shout h'
        | positional =>
            cases name with
            | none => exact ih (some t) shout h'
            | some x => exact ih (some x) shout h'

/-- A scan over an argument vector holding a malformed option before
the `--` separator and no help token ends in an argument error. -/
theorem scanTokens_bad :
    ∀ (l : List PyStr) (name : Option PyStr) (shout pending : Bool) (t : PyStr),
      t ∈ beforeSep l → isBadOption t = true →
      (∀ u ∈ l, tokClass u ≠ TokClass.helpFlag) →
      scanTokens l name shout pending = ParseOutcome.errorExit := by
  intro l
  induction l with
  | nil =>
      intro name shout pending t ht _ _
      simp [beforeSep] at ht
  | cons u rest ih =>
      intro name shout pending t ht hbad hnh
      have hnh' : ∀ w ∈ rest, tokClass w ≠ TokClass.helpFlag :=
        fun w hw => hnh w (List.mem_cons_of_mem u hw)
      by_cases hsep : u = strLit "--"
      · rw [beforeSep, if_pos hsep] at ht
        simp at ht
      · rw [beforeSep, if_neg hsep] at ht
        have hu := hnh u (List.mem_cons_self u rest)
        simp only [scanTokens]
        rw [if_neg hsep]
        rcases List.mem_cons.mp ht with rfl | htr
        · cases hcls : tokClass t with
          | helpFlag => exact absurd hcls hu
          | shoutFlag => simp [isBadOption, hcls] at hbad
          | positional => simp [isBadOption, hcls] at hbad
          | badExplicit => rfl
          | unknownOpt => exact scanTokens_pending rest name shout hnh'
        · cases hcls : tokClass u with
          | helpFlag => exact absurd hcls hu
          | shoutFlag => exact ih name true pending t htr hbad hnh'
          | badExplicit => rfl
          | unknownOpt => exact scanTokens_pending rest name shout hnh'
          | positional =>
              cases name with
              | none => exact ih (some u) shout pending t htr hbad hnh'
              | some x => exact ih (some x) shout true t htr hbad hnh'

/-- C9: if the argument vector contains a malformed (unrecognized or
explicit-argument) option before any `--` separator and no token that
triggers the help option (which argparse honours with exit 0), the
greeting CLI exits nonzero with a usage message on standard error;
whenever parsing succeeds the CLI prints the greeting and exits 0; and
parsing the empty argument vector succeeds with the documented
defaults. -/
theorem helloworld_cli_errors :
    (∀ argv : List PyStr, ∀ t ∈ beforeSep argv, isBadOption t = true →
        (∀ u ∈ argv, tokClass u ≠ TokClass.helpFlag) →
        (helloworld_main argv).exitCode ≠ 0 ∧
        (helloworld_main argv).stderr ≠ strLit "") ∧
    (∀ argv : List PyStr, ∀ args : GreetArgs, parse_args argv = .ok args →
        helloworld_main argv =
          { stdout := format_greeting args.name args.shout ++ newline,
            stderr := strLit "", exitCode := 0 }) ∧
    parse_args [] = .ok { name := strLit "User", shout := false } := by
  refine ⟨?_, ?_, by decide⟩
  · intro argv t ht hbad hnh
    have hp : parse_args argv = .errorExit :=
      scanTokens_bad argv none false false t ht hbad hnh
    constructor
    · simp [helloworld_main, hp]
    · simp only [helloworld_main, hp]
      decide
  · intro argv args h
    simp [helloworld_main, h]

/-- C9 witness: the single unrecognized flag -x makes the greeting CLI
exit nonzero, and the well-formed invocation with the one positional
bob succeeds with exit 0. -/
theorem helloworld_cli_errors_witness :
    (helloworld_main [strLit "-x"]).exitCode ≠ 0 ∧
    helloworld_main [strLit "bob"] =
      { stdout := format_greeting (strLit "bob") false ++ newline,
        stderr := strLit "", exitCode := 0 } :=
  ⟨(helloworld_cli_errors.1 [strLit "-x"] (strLit "-x") (by decide)
      (by decide) (by decide)).1,
   helloworld_cli_errors.2.1 [strLit "bob"]
      { name := strLit "bob", shout := false } (by decide)⟩

/-- C10: the wrapper CLI result is a function of entry 1 of the
argument vector alone: two invocations that agree there (both present
and equal, or both absent) produce identical stdout, stderr and exit
code, whatever the program name and any further arguments. -/
theorem foobar_main_depends_only_on_arg1 (a b : List PyStr)
    (h : a[1]? = b[1]?) : foobar_main a = foobar_main b := by
  simp [foobar_main, h]

/-- C10 witness: an invocation with a trailing extra argument and a
different program name gives the same result as one without them. -/
theorem foobar_main_depends_only_on_arg1_witness :
    foobar_main [strLit "prog", strLit "x", strLit "junk"] =
      foobar_main [strLit "other", strLit "x"] :=
  foobar_main_depends_only_on_arg1
    [strLit "prog", strLit "x", strLit "junk"]
    [strLit "other", strLit "x"] (by decide)
